import Mathlib

/-!
Formal model of the unifi2netbox reconciliation script (`src/main.py`).

The script syncs devices discovered from UniFi wireless controllers into a
NetBox inventory.  We shallowly embed the pure decision logic of the script:

* the site-name mapping (`load_site_mapping`, `get_netbox_site_name`);
* the per-device reconciliation pipeline (`process_device`), modelled as a
  pure function from an explicit NetBox state (the entities the script reads
  and writes through the API) to a new state, together with a trace of the
  create calls it issued and an outcome describing where the function
  returned;
* the success-log audit extractor (`parse_successful_log_entries`).

NetBox itself is modelled as a deterministic in-memory store: `get`-by-filter
returns zero, one, or "multiple" results exactly as pynetbox does (raising on
"multiple"), and the only create call that can fail is device creation, which
NetBox rejects when another device with the same name exists at the same site
("Device name must be unique per site").
-/

namespace Unifi2Netbox

/-! ## Generic association-list lemmas (Python `dict` behaviour) -/

/-- Looking a key up in an appended association list searches the left part
first, exactly like `dict` lookup after building the list left to right. -/
theorem lookup_append {α β : Type} [BEq α] (l l' : List (α × β)) (k : α) :
    (l ++ l').lookup k =
      (match l.lookup k with
       | some v => some v
       | none => l'.lookup k) := by
  induction l with
  | nil => rfl
  | cons kv t ih =>
    cases kv with
    | mk a b =>
      by_cases h : (k == a) = true
      · simp [List.lookup, h]
      · simp only [Bool.not_eq_true] at h
        simp [List.lookup, h, ih]

/-! ## Site mapping (`load_site_mapping`, `get_netbox_site_name`) -/

/-- The `UNIFI` section of `config.yaml`, as far as site mapping is
concerned: the optional inline `SITE_MAPPINGS` dictionary and the
`USE_SITE_MAPPING` flag. -/
structure ConfigUnifi where
  site_mappings : Option (List (String × String))
  use_site_mapping : Bool
deriving DecidableEq

/-- The loop at the end of `load_site_mapping`: every entry of the mapping
file is added to the accumulated mapping only when its key is not already
present (config values are never overwritten). -/
def merge_file_mapping (base file : List (String × String)) :
    List (String × String) :=
  file.foldl
    (fun acc kv => if (acc.lookup kv.1).isSome then acc else acc ++ [kv])
    base

/-- Model of `load_site_mapping` in `src/main.py`: start from the inline
config mappings (empty when absent), then, when `USE_SITE_MAPPING` is
enabled, fill the gaps from the mapping file. -/
def load_site_mapping (config : Option ConfigUnifi)
    (fileMapping : List (String × String)) : List (String × String) :=
  let site_mapping : List (String × String) :=
    match config with
    | some c =>
      match c.site_mappings with
      | some m => m
      | none => []
    | none => []
  let use_file : Bool :=
    match config with
    | some c => c.use_site_mapping
    | none => false
  if use_file then merge_file_mapping site_mapping fileMapping
  else site_mapping

/-- Model of `get_netbox_site_name`: look the UniFi site name up in the
merged mapping and fall back to the name itself. -/
def get_netbox_site_name (unifi_site_name : String)
    (config : Option ConfigUnifi) (fileMapping : List (String × String)) :
    String :=
  ((load_site_mapping config fileMapping).lookup unifi_site_name).getD
    unifi_site_name

theorem merge_lookup_some {base file : List (String × String)} {k : String}
    {v : String} (h : base.lookup k = some v) :
    (merge_file_mapping base file).lookup k = some v := by
  induction file generalizing base with
  | nil => simpa [merge_file_mapping] using h
  | cons kv t ih =>
    simp only [merge_file_mapping, List.foldl_cons]
    by_cases hp : (base.lookup kv.1).isSome = true
    · rw [if_pos hp]
      exact ih h
    · rw [if_neg hp]
      refine ih ?_
      rw [lookup_append, h]

theorem merge_lookup_none_file {base file : List (String × String)}
    {k v : String} (hb : base.lookup k = none) (hf : file.lookup k = some v) :
    (merge_file_mapping base file).lookup k = some v := by
  induction file generalizing base with
  | nil => simp [List.lookup] at hf
  | cons kv t ih =>
    cases kv with
    | mk k1 v1 =>
      simp only [merge_file_mapping, List.foldl_cons]
      by_cases hk : (k == k1) = true
      · have hkk : k = k1 := eq_of_beq hk
        subst hkk
        have hv : v1 = v := by
          simpa [List.lookup] using hf
        have hp : ¬(base.lookup k).isSome = true := by simp [hb]
        rw [if_neg hp]
        refine merge_lookup_some ?_
        rw [lookup_append, hb]
        simp [List.lookup, hv]
      · have hf' : t.lookup k = some v := by
          simp only [Bool.not_eq_true] at hk
          simpa [List.lookup, hk] using hf
        by_cases hp : (base.lookup k1).isSome = true
        · rw [if_pos hp]
          exact ih hb hf'
        · rw [if_neg hp]
          refine ih ?_ hf'
          rw [lookup_append, hb]
          simp only [Bool.not_eq_true] at hk
          simp [List.lookup, hk]

theorem merge_lookup_none_none {base file : List (String × String)}
    {k : String} (hb : base.lookup k = none) (hf : file.lookup k = none) :
    (merge_file_mapping base file).lookup k = none := by
  induction file generalizing base with
  | nil => simpa [merge_file_mapping] using hb
  | cons kv t ih =>
    cases kv with
    | mk k1 v1 =>
      have hk : (k == k1) = false := by
        by_contra hc
        simp only [Bool.not_eq_false] at hc
        simp [List.lookup, hc] at hf
      have hf' : t.lookup k = none := by
        simpa [List.lookup, hk] using hf
      simp only [merge_file_mapping, List.foldl_cons]
      by_cases hp : (base.lookup k1).isSome = true
      · rw [if_pos hp]
        exact ih hb hf'
      · rw [if_neg hp]
        refine ih ?_ hf'
        rw [lookup_append, hb]
        simp [List.lookup, hk]

/-- C3: for a controller-site-name present in both the inline config mapping
and the file-based mapping, `load_site_mapping` resolves it to the config's
value, never the file's; and file entries are only added for keys absent from
the config mapping (for such keys the file's value is used). -/
theorem config_mapping_wins_over_file (m file : List (String × String))
    (k vc vf : String) (hc : m.lookup k = some vc)
    (hf : file.lookup k = some vf) :
    (load_site_mapping (some ⟨some m, true⟩) file).lookup k = some vc ∧
      (∀ k2 v2 : String, m.lookup k2 = none → file.lookup k2 = some v2 →
        (load_site_mapping (some ⟨some m, true⟩) file).lookup k2 = some v2) := by
  constructor
  · simpa [load_site_mapping] using @merge_lookup_some m file k vc hc
  · intro k2 v2 h2 h3
    simpa [load_site_mapping] using merge_lookup_none_file h2 h3

theorem config_mapping_wins_over_file_witness :
    ([("Default", "HQ"), ("Lab", "LabSite")].lookup "Default" =
        some "HQ") ∧
      ([("Default", "Branch"), ("Shop", "ShopSite")].lookup "Default" =
        some "Branch") ∧
      (load_site_mapping (some ⟨some [("Default", "HQ"), ("Lab", "LabSite")], true⟩)
            [("Default", "Branch"), ("Shop", "ShopSite")]).lookup "Default" =
        some "HQ" ∧
      (load_site_mapping (some ⟨some [("Default", "HQ"), ("Lab", "LabSite")], true⟩)
            [("Default", "Branch"), ("Shop", "ShopSite")]).lookup "Shop" =
        some "ShopSite" := by
  refine ⟨by decide, by decide, ?_⟩
  have h := config_mapping_wins_over_file
    [("Default", "HQ"), ("Lab", "LabSite")]
    [("Default", "Branch"), ("Shop", "ShopSite")]
    "Default" "HQ" "Branch" (by decide) (by decide)
  exact ⟨h.1, h.2 "Shop" "ShopSite" (by decide) (by decide)⟩

/-- C4: a controller-site-name with no entry in the inline config mapping and
no entry in the file mapping resolves to itself, whether or not the file
mapping is enabled. -/
theorem unmapped_site_resolves_to_itself (m file : List (String × String))
    (usef : Bool) (k : String) (hc : m.lookup k = none)
    (hf : file.lookup k = none) :
    get_netbox_site_name k (some ⟨some m, usef⟩) file = k := by
  cases usef with
  | false => simp [get_netbox_site_name, load_site_mapping, hc]
  | true =>
    simp [get_netbox_site_name, load_site_mapping,
      merge_lookup_none_none hc hf]

theorem unmapped_site_resolves_to_itself_witness :
    ([("Default", "HQ")].lookup "Warehouse" = (none : Option String)) ∧
      ([("Shop", "ShopSite")].lookup "Warehouse" = (none : Option String)) ∧
      get_netbox_site_name "Warehouse" (some ⟨some [("Default", "HQ")], true⟩)
        [("Shop", "ShopSite")] = "Warehouse" := by
  exact ⟨by decide, by decide,
    unmapped_site_resolves_to_itself [("Default", "HQ")] [("Shop", "ShopSite")]
      true "Warehouse" (by decide) (by decide)⟩

/-! ## Log-derived audit extractor (`parse_successful_log_entries`)

The parser scans each line of a log file.  A line is considered only when it
contains `"INFO - "`; the content after the first occurrence is matched
against the regular expressions
`^Device .* with ID (\d+) successfully added to NetBox` and
`^IP address .* with ID (\d+) successfully added to NetBox`.
We embed the two anchored regexes directly: the `.*` is greedy, so the
captured ID comes from the rightmost viable split of the content, and the
digit run is maximal. -/

/-- Boolean test that the first list is an initial segment of the second. -/
def leadsWith : List Char → List Char → Bool
  | [], _ => true
  | _ :: _, [] => false
  | a :: as, b :: bs => a == b && leadsWith as bs

/-- The content of a line after the first occurrence of the token, or `none`
when the token does not occur (Python's `tok in line` guard followed by
`line.split(tok, 1)[1]`). -/
def afterFirst (tok : List Char) : List Char → Option (List Char)
  | [] => none
  | c :: cs =>
    if leadsWith tok (c :: cs) then some ((c :: cs).drop tok.length)
    else afterFirst tok cs

/-- Numeric value of a digit run, as Python's `int` on the captured group. -/
def digitsVal (ds : List Char) : Nat :=
  ds.foldl (fun n c => n * 10 + (c.toNat - 48)) 0

def midTok : List Char := (" with ID ").data

def tailTok : List Char := (" successfully added to NetBox").data

/-- Attempt to match `" with ID (\d+) successfully added to NetBox"` at the
start of the given content, returning the captured ID. -/
def tryAt (cs : List Char) : Option Nat :=
  if leadsWith midTok cs then
    let after := cs.drop midTok.length
    let ds := after.takeWhile Char.isDigit
    if !ds.isEmpty && leadsWith tailTok (after.drop ds.length) then
      some (digitsVal ds)
    else none
  else none

/-- Greedy `.*`: the regex engine backtracks from the longest candidate, so
the rightmost position at which the rest of the pattern matches wins. -/
def greedyMatch : List Char → Option Nat
  | [] => none
  | c :: cs =>
    match greedyMatch cs with
    | some n => some n
    | none => tryAt (c :: cs)

/-- Match `^<entityTok>.* with ID (\d+) successfully added to NetBox` against
the content of a log line. -/
def entityId (entityTok content : List Char) : Option Nat :=
  if leadsWith entityTok content then
    greedyMatch (content.drop entityTok.length)
  else none

/-- Classification of one log line: `some (true, n)` for a device entry with
ID `n`, `some (false, n)` for an IP-address entry, `none` otherwise. -/
def line_entry (line : List Char) : Option (Bool × Nat) :=
  match afterFirst ("INFO - ").data line with
  | none => none
  | some content =>
    match entityId ("Device ").data content with
    | some n => some (true, n)
    | none =>
      match entityId ("IP address ").data content with
      | some n => some (false, n)
      | none => none

/-- Result dictionary of the extractor: the `"device"` and `"ip address"`
ID lists. -/
structure LogIds where
  device : List Nat
  ip_address : List Nat
deriving DecidableEq

/-- One step of the line loop in `parse_successful_log_entries`. -/
def log_step (acc : LogIds) (l : String) : LogIds :=
  match line_entry l.data with
  | some (true, n) => { acc with device := acc.device ++ [n] }
  | some (false, n) => { acc with ip_address := acc.ip_address ++ [n] }
  | none => acc

/-- Model of `parse_successful_log_entries`: the log file is given as its
list of lines. -/
def parse_successful_log_entries (lines : List String) : LogIds :=
  lines.foldl log_step ⟨[], []⟩

theorem log_fold_skip (ls : List String) (acc : LogIds)
    (h : ∀ l ∈ ls, line_entry l.data = none) :
    ls.foldl log_step acc = acc := by
  induction ls generalizing acc with
  | nil => rfl
  | cons l t ih =>
    have hl : line_entry l.data = none := h l (by simp)
    have ht : ∀ x ∈ t, line_entry x.data = none := by
      intro x hx
      exact h x (by simp [hx])
    simp only [List.foldl_cons, log_step, hl]
    exact ih acc ht

/-- C7: on a log file containing the INFO success line for a device with ID
42 and the INFO success line for an IP address with ID 7, surrounded by any
lines that match neither pattern, the extractor returns exactly
`device = [42]` and `ip address = [7]`. -/
theorem audit_extraction_device_and_ip (pre mid post : List String)
    (h : ∀ l ∈ pre ++ mid ++ post, line_entry l.data = none) :
    parse_successful_log_entries
        (pre ++
          ["2025-01-01 12:00:00 - INFO - Device X with ID 42 successfully added to NetBox"] ++
          mid ++
          ["2025-01-01 12:00:01 - INFO - IP address Y with ID 7 successfully added to NetBox"] ++
          post) = ⟨[42], [7]⟩ := by
  have hpre : ∀ l ∈ pre, line_entry l.data = none := by
    intro l hl
    exact h l (by simp [hl])
  have hmid : ∀ l ∈ mid, line_entry l.data = none := by
    intro l hl
    exact h l (by simp [hl])
  have hpost : ∀ l ∈ post, line_entry l.data = none := by
    intro l hl
    exact h l (by simp [hl])
  have hdev : line_entry
      ("2025-01-01 12:00:00 - INFO - Device X with ID 42 successfully added to NetBox").data =
      some (true, 42) := by decide
  have hip : line_entry
      ("2025-01-01 12:00:01 - INFO - IP address Y with ID 7 successfully added to NetBox").data =
      some (false, 7) := by decide
  simp only [parse_successful_log_entries, List.foldl_append, List.foldl_cons,
    List.foldl_nil]
  rw [log_fold_skip pre _ hpre]
  simp only [log_step, hdev]
  rw [log_fold_skip mid _ hmid]
  simp only [log_step, hip]
  exact log_fold_skip post _ hpost

theorem audit_extraction_device_and_ip_witness :
    (∀ l ∈ (["starting run"] ++ ["2025-01-01 - WARNING - Invalid IP x"] ++
        ["2025-01-01 - INFO - VRF vrf_a with ID 3 successfully added to NetBox."]),
      line_entry l.data = none) ∧
    parse_successful_log_entries
        (["starting run"] ++
          ["2025-01-01 12:00:00 - INFO - Device X with ID 42 successfully added to NetBox"] ++
          ["2025-01-01 - WARNING - Invalid IP x"] ++
          ["2025-01-01 12:00:01 - INFO - IP address Y with ID 7 successfully added to NetBox"] ++
          ["2025-01-01 - INFO - VRF vrf_a with ID 3 successfully added to NetBox."]) =
      ⟨[42], [7]⟩ := by
  refine ⟨by decide, ?_⟩
  exact audit_extraction_device_and_ip ["starting run"]
    ["2025-01-01 - WARNING - Invalid IP x"]
    ["2025-01-01 - INFO - VRF vrf_a with ID 3 successfully added to NetBox."]
    (by decide)

/-- C10: the device regex only anchors on the leading `"Device "`, so the
success line logged for a device type is classified under `"device"` as
well: its ID lands in the same list as the IDs of inventory devices. -/
theorem device_type_lines_counted_as_device :
    parse_successful_log_entries
        (["2025-01-01 12:00:00 - INFO - Device type US-8 with ID 9 successfully added to NetBox.",
          "2025-01-01 12:00:02 - INFO - Device sw1 serial S1 with ID 42 successfully added to NetBox."]) =
      ⟨[9, 42], []⟩ := by decide

/-! ## IPv4 parsing (`ipaddress.ip_address` and the `contains` filter)

The script validates `device["ip"]` with `ipaddress.ip_address` and asks
NetBox for the prefixes containing the IP inside the device's VRF.  We model
the dotted-quad (IPv4) syntax: four decimal octets, each without leading
zeros and at most 255.  NetBox's `contains` filter is modelled as network
containment of the address in the prefix. -/

/-- Splitting a character list at a separator, as Python's `str.split`:
`"".split(sep)` gives `[""]`, separators at the ends give empty parts. -/
def split_on_char (c : Char) : List Char → List (List Char)
  | [] => [[]]
  | x :: xs =>
    if x == c then [] :: split_on_char c xs
    else
      match split_on_char c xs with
      | [] => [[x]]
      | g :: gs => (x :: g) :: gs

def all_digits (l : List Char) : Bool :=
  !l.isEmpty && l.all Char.isDigit

/-- One octet of a dotted quad: nonempty digits, no leading zero (except the
single digit `0`), value at most 255. -/
def octet_ok (l : List Char) : Bool :=
  all_digits l && (l.length == 1 || l.head? != some '0') &&
    digitsVal l ≤ 255

def parse_ipv4_chars (l : List Char) : Option Nat :=
  match split_on_char '.' l with
  | [a, b, c, d] =>
    if octet_ok a && octet_ok b && octet_ok c && octet_ok d then
      some (digitsVal a * 16777216 + digitsVal b * 65536 +
        digitsVal c * 256 + digitsVal d)
    else none
  | _ => none

def parse_ipv4 (s : String) : Option Nat :=
  parse_ipv4_chars s.data

/-- Syntactic validity of the device IP, the check performed by
`ipaddress.ip_address` (restricted to the IPv4 form the controllers
report). -/
def is_valid_ip (s : String) : Bool :=
  (parse_ipv4 s).isSome

/-- Does the CIDR `net/mask` contain the address?  This is NetBox's
`contains` prefix filter. -/
def cidr_contains (cidr ip : String) : Bool :=
  match split_on_char '/' cidr.data with
  | [net, mask] =>
    match parse_ipv4_chars net, parse_ipv4 ip with
    | some n, some i =>
      all_digits mask && digitsVal mask ≤ 32 &&
        n / 2 ^ (32 - digitsVal mask) == i / 2 ^ (32 - digitsVal mask)
    | _, _ => false
  | _ => false

/-- The mask length the script extracts with `prefix.split('/')[1]`. -/
def mask_of_cidr (cidr : String) : String :=
  String.mk (((split_on_char '/' cidr.data).drop 1).headD [])

/-! ## The NetBox data model seen by `process_device` -/

/-- Lowercasing as Python's `str.lower` on ASCII strings. -/
def lowerStr (s : String) : String :=
  String.mk (s.data.map Char.toLower)

/-- Simplified `slugify`: lowercase, non-alphanumeric runs become single
dashes, leading and trailing dashes dropped.  Only stored in the device-type
slug field, never read back by the script. -/
def slug_squeeze : List Char → Bool → List Char
  | [], _ => []
  | c :: r, lastDash =>
    if c = '-' then
      if lastDash then slug_squeeze r true else '-' :: slug_squeeze r true
    else c :: slug_squeeze r false

def slugify (s : String) : String :=
  let cs := (s.data.map Char.toLower).map
    (fun c => if c.isAlphanum then c else '-')
  String.mk (((slug_squeeze cs true).reverse.dropWhile (· = '-')).reverse)

/-- One entry of the UniFi `port_table`. -/
structure Port where
  name : String
  media : String
deriving DecidableEq

/-- A device record reported by a UniFi controller.  `serial` is the empty
string when the field is missing or empty (both are falsy in the script's
`device.get("serial")` check); `is_access_point` is the string form of the
reported flag, `"false"` when absent. -/
structure DeviceRec where
  name : String
  model : String
  mac : String
  ip : String
  serial : String
  is_access_point : String
  port_table : List Port
deriving DecidableEq

structure Vrf where
  id : Nat
  name : String
deriving DecidableEq

structure DevType where
  id : Nat
  manufacturer : Nat
  model : String
  slug : String
deriving DecidableEq

structure IfTemplate where
  id : Nat
  device_type : Nat
  name : String
  iftype : String
deriving DecidableEq

/-- A NetBox device.  `role_key` records which field name (`"role"` or
`"device_role"`) carried the role in the create call. -/
structure NbDevice where
  id : Nat
  name : String
  device_type : Nat
  tenant : Nat
  site : Nat
  serial : String
  role_key : String
  role : Nat
  primary_ip4 : Option Nat
deriving DecidableEq

structure Iface where
  id : Nat
  device : Nat
  name : String
  iftype : String
  enabled : Bool
  vrf_id : Nat
deriving DecidableEq

structure Pfx where
  id : Nat
  cidr : String
  vrf_id : Nat
deriving DecidableEq

structure IpAddr where
  id : Nat
  address : String
  vrf_id : Nat
  tenant_id : Nat
  interface_id : Nat
  status : String
deriving DecidableEq

/-- The NetBox inventory state visible to `process_device`, together with
the answer of the capability introspection (`get_postable_fields` on
`dcim/devices`, a run-constant property of the NetBox version) and a fresh-ID
counter for created records. -/
structure NbState where
  vrfs : List Vrf
  device_types : List DevType
  interface_templates : List IfTemplate
  devices : List NbDevice
  interfaces : List Iface
  prefixes : List Pfx
  ip_addresses : List IpAddr
  postable_fields : List String
  next_id : Nat
deriving DecidableEq

/-- Model of `get_postable_fields(netbox_url, netbox_token, 'dcim/devices')`:
the set of field names NetBox accepts on device creation. -/
def get_postable_fields (st : NbState) : List String :=
  st.postable_fields

/-- The run-wide singletons passed into `process_device`: the role IDs, the
tenant, the Ubiquity manufacturer, and the NetBox site being processed. -/
structure Ctx where
  wireless_role : Nat
  lan_role : Nat
  tenant_id : Nat
  manufacturer_id : Nat
  manufacturer_name : String
  site_id : Nat
  site_name : String
deriving DecidableEq

/-- Kinds of create calls the script can issue against NetBox. -/
inductive EvKind where
  | vrf
  | devtype
  | iftemplate
  | device
  | iface
  | ipaddr
deriving DecidableEq

/-- One create call in the trace: its kind and whether NetBox accepted it
(only device creation can be rejected, on a per-site name conflict). -/
structure Ev where
  kind : EvKind
  ok : Bool
deriving DecidableEq

/-- Where `process_device` returned.  The `skipped*` outcomes are the logged
warnings followed by `return`; the `err*` outcomes are the logged errors /
exceptions (including exceptions caught by the outer handler); `done` is the
fall-through end of the function. -/
inductive Outcome where
  | done
  | skippedMissingSerial
  | skippedDeviceExists
  | skippedInvalidIp
  | skippedNoPfx
  | errException
  | errRoleField
  | errDeviceCreate
deriving DecidableEq

/-- A fatal outcome for the device: the paths the script reports through
`logger.error` / `logger.exception` rather than a warning, including the
role-field failure (whose logging call itself raises `NameError`, caught by
the outer handler). -/
def Outcome.isFatal : Outcome → Bool
  | .errException => true
  | .errRoleField => true
  | .errDeviceCreate => true
  | _ => false

/-- Result of a pipeline step: either the step produced a value and the
function continues, or it returned with the given outcome. -/
inductive StepRes (α : Type) where
  | ok (st : NbState) (evs : List Ev) (a : α)
  | stop (st : NbState) (evs : List Ev) (o : Outcome)

def StepRes.state {α : Type} : StepRes α → NbState
  | .ok st _ _ => st
  | .stop st _ _ => st

/-! ## `process_device`, step by step

The steps below are in one-to-one correspondence with the blocks of
`process_device` in `src/main.py` (lines 220–397): role selection, serial
check, VRF fetch-or-create, device-type fetch-or-create with interface
templates, device existence check plus creation with the name-conflict
retry, and the IP block (validity, containing prefix, `vlan.1` interface,
IP address, primary-IP save). -/

/-- The VRF name is derived from the site: `f"vrf_{site}"`. -/
def vrf_name_of (ctx : Ctx) : String :=
  "vrf_" ++ ctx.site_name

/-- VRF fetch-or-create.  `nb.ipam.vrfs.get(name=...)` raises on multiple
matches; the script catches that, warns, and uses the first result of
`filter`, so zero matches create the VRF and any match uses the first. -/
def step_vrf (ctx : Ctx) (st : NbState) : NbState × List Ev × Vrf :=
  match st.vrfs.filter (fun v => v.name == vrf_name_of ctx) with
  | [] =>
    let v : Vrf := ⟨st.next_id, vrf_name_of ctx⟩
    ({ st with
        vrfs := st.vrfs ++ [v]
        next_id := st.next_id + 1 },
      [⟨.vrf, true⟩], v)
  | v :: _ => (st, [], v)

/-- The device-type lookup key: `model` and `manufacturer_id`. -/
def dt_match (ctx : Ctx) (dev : DeviceRec) (t : DevType) : Bool :=
  t.model == dev.model && t.manufacturer == ctx.manufacturer_id

/-- On first creation of a device type, one interface template is created
per port of the UniFi `port_table` whose media is `"GE"`, with type
`"1000base-t"` (the loop over `device["port_table"]`). -/
def create_iftemplates (dt_id : Nat) : List Port → NbState → NbState × List Ev
  | [], st => (st, [])
  | port :: rest, st =>
    if port.media == "GE" then
      let tpl : IfTemplate := ⟨st.next_id, dt_id, port.name, "1000base-t"⟩
      let st1 := { st with
        interface_templates := st.interface_templates ++ [tpl]
        next_id := st.next_id + 1 }
      let r := create_iftemplates dt_id rest st1
      (r.1, [⟨.iftemplate, true⟩] ++ r.2)
    else create_iftemplates dt_id rest st

/-- Device-type fetch-or-create.  A unique match is reused; no match creates
the type (and its interface templates); multiple matches make the uncaught
`get` raise, which the outer handler turns into a per-device abort. -/
def step_devtype (ctx : Ctx) (dev : DeviceRec) (st : NbState) :
    StepRes DevType :=
  match st.device_types.filter (dt_match ctx dev) with
  | [t] => .ok st [] t
  | [] =>
    let t : DevType := ⟨st.next_id, ctx.manufacturer_id, dev.model,
      slugify (ctx.manufacturer_name ++ "-" ++ dev.model)⟩
    let st1 := { st with
      device_types := st.device_types ++ [t]
      next_id := st.next_id + 1 }
    let r := create_iftemplates t.id dev.port_table st1
    .ok r.1 ([⟨.devtype, true⟩] ++ r.2) t
  | _ => .stop st [] .errException

/-- The existence check key: `site_id` and `serial`. -/
def dev_key (ctx : Ctx) (dev : DeviceRec) (d : NbDevice) : Bool :=
  d.site == ctx.site_id && d.serial == dev.serial

/-- NetBox's per-site name-uniqueness constraint: a create call with this
name at this site is rejected when another device with the same name already
exists at the site. -/
def name_taken (st : NbState) (ctx : Ctx) (n : String) : Bool :=
  st.devices.any (fun d => d.site == ctx.site_id && d.name == n)

/-- The `device_data` payload of the create call, with the role under the
field name the schema introspection selected. -/
def mk_device (id : Nat) (n : String) (dt_id tenant site : Nat)
    (serial rk : String) (role : Nat) : NbDevice :=
  ⟨id, n, dt_id, tenant, site, serial, rk, role, none⟩

/-- Existence check and device creation.  An existing `(site, serial)`
device short-circuits; the role field name comes from the POST-able fields
(`role` preferred over `device_role`, neither being an abort); a name
conflict is retried once with `<name>_<serial>`, and a second conflict
abandons the device. -/
def step_device (ctx : Ctx) (dev : DeviceRec) (role : Nat) (dt : DevType)
    (st : NbState) : StepRes NbDevice :=
  match st.devices.filter (dev_key ctx dev) with
  | [_] => .stop st [] .skippedDeviceExists
  | _ :: _ :: _ => .stop st [] .errException
  | [] =>
    match (if (get_postable_fields st).contains "role" then some "role"
           else if (get_postable_fields st).contains "device_role" then
             some "device_role"
           else none) with
    | none => .stop st [] .errRoleField
    | some rk =>
      if name_taken st ctx dev.name then
        let retryName := dev.name ++ "_" ++ dev.serial
        if name_taken st ctx retryName then
          .stop st [⟨.device, false⟩, ⟨.device, false⟩] .errDeviceCreate
        else
          let d := mk_device st.next_id retryName dt.id ctx.tenant_id
            ctx.site_id dev.serial rk role
          .ok
            { st with
              devices := st.devices ++ [d]
              next_id := st.next_id + 1 }
            [⟨.device, false⟩, ⟨.device, true⟩] d
      else
        let d := mk_device st.next_id dev.name dt.id ctx.tenant_id
          ctx.site_id dev.serial rk role
        .ok
          { st with
            devices := st.devices ++ [d]
            next_id := st.next_id + 1 }
          [⟨.device, true⟩] d

/-- Setting `nb_device.primary_ip4` and saving it back to NetBox. -/
def set_primary (st : NbState) (dev_id ip_id : Nat) : NbState :=
  { st with
    devices := st.devices.map (fun d =>
      if d.id == dev_id then { d with primary_ip4 := some ip_id } else d) }

/-- The tail of the IP block once the interface is at hand: fetch-or-create
the IP address bound to interface, VRF and tenant, then save it as the
device's primary IPv4. -/
def step_ip_addr (ctx : Ctx) (vrf : Vrf) (nb_device : NbDevice)
    (iface : Iface) (ipStr : String) (st : NbState) (evs : List Ev) :
    NbState × List Ev × Outcome :=
  match st.ip_addresses.filter
      (fun a => a.address == ipStr && a.vrf_id == vrf.id &&
        a.tenant_id == ctx.tenant_id) with
  | _ :: _ :: _ => (st, evs, .errException)
  | [a] => (set_primary st nb_device.id a.id, evs, .done)
  | [] =>
    let a : IpAddr := ⟨st.next_id, ipStr, vrf.id, ctx.tenant_id, iface.id,
      "active"⟩
    let st1 := { st with
      ip_addresses := st.ip_addresses ++ [a]
      next_id := st.next_id + 1 }
    (set_primary st1 nb_device.id a.id, evs ++ [⟨.ipaddr, true⟩], .done)

/-- The IP block of `process_device`: validate the IP, find a containing
prefix inside the VRF (none is a warning-and-skip), fetch-or-create the
`vlan.1` virtual interface, then handle the IP address. -/
def step_ip (ctx : Ctx) (dev : DeviceRec) (vrf : Vrf)
    (nb_device : NbDevice) (st : NbState) : NbState × List Ev × Outcome :=
  if !is_valid_ip dev.ip then (st, [], .skippedInvalidIp)
  else
    match st.prefixes.filter
        (fun p => p.vrf_id == vrf.id && cidr_contains p.cidr dev.ip) with
    | [] => (st, [], .skippedNoPfx)
    | p :: _ =>
      let ipStr := dev.ip ++ "/" ++ mask_of_cidr p.cidr
      match st.interfaces.filter
          (fun i => i.device == nb_device.id && i.name == "vlan.1") with
      | _ :: _ :: _ => (st, [], .errException)
      | [i] => step_ip_addr ctx vrf nb_device i ipStr st []
      | [] =>
        let i : Iface := ⟨st.next_id, nb_device.id, "vlan.1", "virtual",
          true, vrf.id⟩
        let st1 := { st with
          interfaces := st.interfaces ++ [i]
          next_id := st.next_id + 1 }
        step_ip_addr ctx vrf nb_device i ipStr st1 [⟨.iface, true⟩]

/-- The role selected at the top of `process_device`: Wireless when
`str(device.get("is_access_point", "false")).lower() == "true"`, LAN
otherwise. -/
def select_role (ctx : Ctx) (dev : DeviceRec) : Nat :=
  if lowerStr dev.is_access_point == "true" then ctx.wireless_role
  else ctx.lan_role

/-- Model of `process_device`: the full per-device pipeline.  Returns the
new NetBox state, the trace of create calls, and the outcome (where the
Python function returned). -/
def process_device (ctx : Ctx) (st : NbState) (dev : DeviceRec) :
    NbState × List Ev × Outcome :=
  let role := select_role ctx dev
  if dev.serial == "" then (st, [], .skippedMissingSerial)
  else
    match step_vrf ctx st with
    | (st1, evs1, vrf) =>
      match step_devtype ctx dev st1 with
      | .stop st2 evs2 o => (st2, evs1 ++ evs2, o)
      | .ok st2 evs2 dt =>
        match step_device ctx dev role dt st2 with
        | .stop st3 evs3 o => (st3, evs1 ++ evs2 ++ evs3, o)
        | .ok st3 evs3 nbdev =>
          match step_ip ctx dev vrf nbdev st3 with
          | (st4, evs4, o) => (st4, evs1 ++ evs2 ++ evs3 ++ evs4, o)

/-! ## Structural lemmas about the pipeline steps -/

theorem create_iftemplates_frame (i : Nat) (ports : List Port)
    (st : NbState) :
    (create_iftemplates i ports st).1.vrfs = st.vrfs ∧
    (create_iftemplates i ports st).1.device_types = st.device_types ∧
    (create_iftemplates i ports st).1.devices = st.devices ∧
    (create_iftemplates i ports st).1.interfaces = st.interfaces ∧
    (create_iftemplates i ports st).1.prefixes = st.prefixes ∧
    (create_iftemplates i ports st).1.ip_addresses = st.ip_addresses ∧
    (create_iftemplates i ports st).1.postable_fields = st.postable_fields := by
  induction ports generalizing st with
  | nil => simp [create_iftemplates]
  | cons p rest ih =>
    cases hpm : p.media == "GE" with
    | false =>
      simp only [create_iftemplates, hpm, Bool.false_eq_true, if_false]
      exact ih st
    | true =>
      simp only [create_iftemplates, hpm, if_true]
      exact ih _

theorem create_iftemplates_evs (i : Nat) (ports : List Port) (st : NbState) :
    ∀ e ∈ (create_iftemplates i ports st).2, e = Ev.mk .iftemplate true := by
  induction ports generalizing st with
  | nil => simp [create_iftemplates]
  | cons p rest ih =>
    cases hpm : p.media == "GE" with
    | false =>
      simp only [create_iftemplates, hpm, Bool.false_eq_true, if_false]
      exact ih st
    | true =>
      intro e he
      simp only [create_iftemplates, hpm, if_true, List.singleton_append,
        List.mem_cons] at he
      rcases he with he | he
      · exact he
      · exact ih _ e he

theorem step_vrf_frame (ctx : Ctx) (st : NbState) :
    (step_vrf ctx st).1.device_types = st.device_types ∧
    (step_vrf ctx st).1.interface_templates = st.interface_templates ∧
    (step_vrf ctx st).1.devices = st.devices ∧
    (step_vrf ctx st).1.interfaces = st.interfaces ∧
    (step_vrf ctx st).1.prefixes = st.prefixes ∧
    (step_vrf ctx st).1.ip_addresses = st.ip_addresses ∧
    (step_vrf ctx st).1.postable_fields = st.postable_fields := by
  unfold step_vrf
  cases hv : st.vrfs.filter (fun v => v.name == vrf_name_of ctx) with
  | nil => simp
  | cons v vs => simp

theorem step_vrf_evs (ctx : Ctx) (st : NbState) :
    (step_vrf ctx st).2.1 = [] ∨ (step_vrf ctx st).2.1 = [⟨.vrf, true⟩] := by
  unfold step_vrf
  cases hv : st.vrfs.filter (fun v => v.name == vrf_name_of ctx) with
  | nil => simp
  | cons v vs => simp

/-- After the VRF step the returned VRF heads the name-filtered VRF list of
the resulting state: the VRF the script will use exists in NetBox. -/
theorem step_vrf_out (ctx : Ctx) (st : NbState) :
    ∃ vs, ((step_vrf ctx st).1.vrfs).filter
        (fun v => v.name == vrf_name_of ctx) =
      (step_vrf ctx st).2.2 :: vs := by
  unfold step_vrf
  cases hv : st.vrfs.filter (fun v => v.name == vrf_name_of ctx) with
  | nil =>
    refine ⟨[], ?_⟩
    simp [List.filter_append, hv]
  | cons v vs => exact ⟨vs, by simpa using hv⟩

/-- When a VRF with the derived name already exists, the VRF step performs
no create call and returns the first match. -/
theorem step_vrf_of_present (ctx : Ctx) (st : NbState) (v : Vrf)
    (vs : List Vrf)
    (h : st.vrfs.filter (fun x => x.name == vrf_name_of ctx) = v :: vs) :
    step_vrf ctx st = (st, [], v) := by
  simp [step_vrf, h]

theorem step_devtype_frame (ctx : Ctx) (dev : DeviceRec) (st : NbState) :
    (step_devtype ctx dev st).state.vrfs = st.vrfs ∧
    (step_devtype ctx dev st).state.devices = st.devices ∧
    (step_devtype ctx dev st).state.interfaces = st.interfaces ∧
    (step_devtype ctx dev st).state.prefixes = st.prefixes ∧
    (step_devtype ctx dev st).state.ip_addresses = st.ip_addresses ∧
    (step_devtype ctx dev st).state.postable_fields = st.postable_fields := by
  unfold step_devtype
  cases hd : st.device_types.filter (dt_match ctx dev) with
  | nil =>
    have hfr := create_iftemplates_frame st.next_id dev.port_table
      { st with
        device_types := st.device_types ++
          [⟨st.next_id, ctx.manufacturer_id, dev.model,
            slugify (ctx.manufacturer_name ++ "-" ++ dev.model)⟩]
        next_id := st.next_id + 1 }
    simpa [StepRes.state] using
      ⟨hfr.1, hfr.2.2.1, hfr.2.2.2.1, hfr.2.2.2.2.1, hfr.2.2.2.2.2.1,
        hfr.2.2.2.2.2.2⟩
  | cons t ts =>
    cases ts with
    | nil => simp [StepRes.state]
    | cons t2 ts2 => simp [StepRes.state]

/-- A successful device-type step leaves exactly one matching device type in
the resulting state: the one it returned. -/
theorem step_devtype_ok_filter (ctx : Ctx) (dev : DeviceRec)
    (st st2 : NbState) (evs : List Ev) (t : DevType)
    (h : step_devtype ctx dev st = .ok st2 evs t) :
    st2.device_types.filter (dt_match ctx dev) = [t] := by
  unfold step_devtype at h
  cases hd : st.device_types.filter (dt_match ctx dev) with
  | nil =>
    rw [hd] at h
    simp only [StepRes.ok.injEq] at h
    obtain ⟨h1, _, h3⟩ := h
    have hfr := create_iftemplates_frame st.next_id dev.port_table
      { st with
        device_types := st.device_types ++
          [⟨st.next_id, ctx.manufacturer_id, dev.model,
            slugify (ctx.manufacturer_name ++ "-" ++ dev.model)⟩]
        next_id := st.next_id + 1 }
    rw [← h1, hfr.2.1, ← h3]
    simp [List.filter_append, hd, dt_match]
  | cons t0 ts =>
    cases ts with
    | nil =>
      rw [hd] at h
      simp only [StepRes.ok.injEq] at h
      obtain ⟨h1, _, h3⟩ := h
      rw [← h1, ← h3, hd]
    | cons t2 ts2 =>
      rw [hd] at h
      simp at h

theorem step_devtype_stop (ctx : Ctx) (dev : DeviceRec) (st st2 : NbState)
    (evs : List Ev) (o : Outcome)
    (h : step_devtype ctx dev st = .stop st2 evs o) :
    st2 = st ∧ evs = [] ∧ o = .errException ∧
      ∃ a b l, st.device_types.filter (dt_match ctx dev) = a :: b :: l := by
  unfold step_devtype at h
  cases hd : st.device_types.filter (dt_match ctx dev) with
  | nil =>
    rw [hd] at h
    simp at h
  | cons t0 ts =>
    cases ts with
    | nil =>
      rw [hd] at h
      simp at h
    | cons t2 ts2 =>
      rw [hd] at h
      simp only [StepRes.stop.injEq] at h
      exact ⟨h.1.symm, h.2.1.symm, h.2.2.symm, t0, t2, ts2, rfl⟩

theorem step_devtype_of_unique (ctx : Ctx) (dev : DeviceRec) (st : NbState)
    (t : DevType) (h : st.device_types.filter (dt_match ctx dev) = [t]) :
    step_devtype ctx dev st = .ok st [] t := by
  simp [step_devtype, h]

theorem step_devtype_of_multi (ctx : Ctx) (dev : DeviceRec) (st : NbState)
    (a b : DevType) (l : List DevType)
    (h : st.device_types.filter (dt_match ctx dev) = a :: b :: l) :
    step_devtype ctx dev st = .stop st [] .errException := by
  simp [step_devtype, h]

theorem step_devtype_ok_evs (ctx : Ctx) (dev : DeviceRec) (st st2 : NbState)
    (evs : List Ev) (t : DevType)
    (h : step_devtype ctx dev st = .ok st2 evs t) :
    ∀ e ∈ evs, e = Ev.mk .devtype true ∨ e = Ev.mk .iftemplate true := by
  unfold step_devtype at h
  cases hd : st.device_types.filter (dt_match ctx dev) with
  | nil =>
    rw [hd] at h
    simp only [StepRes.ok.injEq] at h
    obtain ⟨_, h2, _⟩ := h
    intro e he
    rw [← h2] at he
    simp only [List.singleton_append, List.mem_cons] at he
    rcases he with he | he
    · exact Or.inl he
    · exact Or.inr (create_iftemplates_evs _ _ _ e he)
  | cons t0 ts =>
    cases ts with
    | nil =>
      rw [hd] at h
      simp only [StepRes.ok.injEq] at h
      obtain ⟨_, h2, _⟩ := h
      rw [← h2]
      simp
    | cons t2 ts2 =>
      rw [hd] at h
      simp at h

/-- The role-field alternative as computed from the POST-able fields. -/
def role_key_of (st : NbState) : Option String :=
  if (get_postable_fields st).contains "role" then some "role"
  else if (get_postable_fields st).contains "device_role" then
    some "device_role"
  else none

theorem step_device_eq (ctx : Ctx) (dev : DeviceRec) (role : Nat)
    (dt : DevType) (st : NbState) :
    step_device ctx dev role dt st =
      (match st.devices.filter (dev_key ctx dev) with
       | [_] => .stop st [] .skippedDeviceExists
       | _ :: _ :: _ => .stop st [] .errException
       | [] =>
         match role_key_of st with
         | none => .stop st [] .errRoleField
         | some rk =>
           if name_taken st ctx dev.name then
             let retryName := dev.name ++ "_" ++ dev.serial
             if name_taken st ctx retryName then
               .stop st [⟨.device, false⟩, ⟨.device, false⟩] .errDeviceCreate
             else
               let d := mk_device st.next_id retryName dt.id ctx.tenant_id
                 ctx.site_id dev.serial rk role
               .ok { st with
                   devices := st.devices ++ [d]
                   next_id := st.next_id + 1 }
                 [⟨.device, false⟩, ⟨.device, true⟩] d
           else
             let d := mk_device st.next_id dev.name dt.id ctx.tenant_id
               ctx.site_id dev.serial rk role
             .ok { st with
                 devices := st.devices ++ [d]
                 next_id := st.next_id + 1 }
               [⟨.device, true⟩] d) := by
  rfl

theorem step_device_of_present (ctx : Ctx) (dev : DeviceRec) (role : Nat)
    (dt : DevType) (st : NbState) (d : NbDevice) (ds : List NbDevice)
    (h : st.devices.filter (dev_key ctx dev) = d :: ds) :
    ∃ o, step_device ctx dev role dt st = .stop st [] o := by
  rw [step_device_eq]
  cases ds with
  | nil => exact ⟨.skippedDeviceExists, by simp [h]⟩
  | cons d2 ds2 => exact ⟨.errException, by simp [h]⟩

theorem step_device_of_clean (ctx : Ctx) (dev : DeviceRec) (role : Nat)
    (dt : DevType) (st : NbState) (rk : String)
    (hd : st.devices.filter (dev_key ctx dev) = [])
    (hrk : role_key_of st = some rk)
    (hnc : name_taken st ctx dev.name = false) :
    step_device ctx dev role dt st =
      .ok { st with
          devices := st.devices ++
            [mk_device st.next_id dev.name dt.id ctx.tenant_id ctx.site_id
              dev.serial rk role]
          next_id := st.next_id + 1 }
        [⟨.device, true⟩]
        (mk_device st.next_id dev.name dt.id ctx.tenant_id ctx.site_id
          dev.serial rk role) := by
  rw [step_device_eq]
  simp [hd, hrk, hnc]

theorem step_device_of_retry (ctx : Ctx) (dev : DeviceRec) (role : Nat)
    (dt : DevType) (st : NbState) (rk : String)
    (hd : st.devices.filter (dev_key ctx dev) = [])
    (hrk : role_key_of st = some rk)
    (hnc1 : name_taken st ctx dev.name = true)
    (hnc2 : name_taken st ctx (dev.name ++ "_" ++ dev.serial) = false) :
    step_device ctx dev role dt st =
      .ok { st with
          devices := st.devices ++
            [mk_device st.next_id (dev.name ++ "_" ++ dev.serial) dt.id
              ctx.tenant_id ctx.site_id dev.serial rk role]
          next_id := st.next_id + 1 }
        [⟨.device, false⟩, ⟨.device, true⟩]
        (mk_device st.next_id (dev.name ++ "_" ++ dev.serial) dt.id
          ctx.tenant_id ctx.site_id dev.serial rk role) := by
  rw [step_device_eq]
  simp [hd, hrk, hnc1, hnc2]

theorem step_device_of_conflict2 (ctx : Ctx) (dev : DeviceRec) (role : Nat)
    (dt : DevType) (st : NbState) (rk : String)
    (hd : st.devices.filter (dev_key ctx dev) = [])
    (hrk : role_key_of st = some rk)
    (hnc1 : name_taken st ctx dev.name = true)
    (hnc2 : name_taken st ctx (dev.name ++ "_" ++ dev.serial) = true) :
    step_device ctx dev role dt st =
      .stop st [⟨.device, false⟩, ⟨.device, false⟩] .errDeviceCreate := by
  rw [step_device_eq]
  simp [hd, hrk, hnc1, hnc2]

theorem step_device_of_norole (ctx : Ctx) (dev : DeviceRec) (role : Nat)
    (dt : DevType) (st : NbState)
    (hd : st.devices.filter (dev_key ctx dev) = [])
    (hrk : role_key_of st = none) :
    step_device ctx dev role dt st = .stop st [] .errRoleField := by
  rw [step_device_eq]
  simp [hd, hrk]

/-- Every `stop` of the device step leaves the state unchanged and has no
accepted create call in its trace. -/
theorem step_device_stop_inv (ctx : Ctx) (dev : DeviceRec) (role : Nat)
    (dt : DevType) (st st2 : NbState) (evs : List Ev) (o : Outcome)
    (h : step_device ctx dev role dt st = .stop st2 evs o) :
    st2 = st ∧ evs.filter (fun e => e.ok) = [] := by
  rw [step_device_eq] at h
  cases hd : st.devices.filter (dev_key ctx dev) with
  | nil =>
    rw [hd] at h
    cases hrk : role_key_of st with
    | none =>
      rw [hrk] at h
      simp only [StepRes.stop.injEq] at h
      exact ⟨h.1.symm, by rw [← h.2.1]; rfl⟩
    | some rk =>
      rw [hrk] at h
      cases hn1 : name_taken st ctx dev.name with
      | false =>
        rw [hn1] at h
        simp at h
      | true =>
        rw [hn1] at h
        cases hn2 : name_taken st ctx (dev.name ++ "_" ++ dev.serial) with
        | false =>
          simp only [hn2, if_true, Bool.false_eq_true, if_false] at h
          simp at h
        | true =>
          simp only [hn2, if_true, StepRes.stop.injEq] at h
          refine ⟨h.1.symm, ?_⟩
          rw [← h.2.1]
          rfl
  | cons d ds =>
    rw [hd] at h
    cases ds with
    | nil =>
      simp only [StepRes.stop.injEq] at h
      exact ⟨h.1.symm, by rw [← h.2.1]; rfl⟩
    | cons d2 ds2 =>
      simp only [StepRes.stop.injEq] at h
      exact ⟨h.1.symm, by rw [← h.2.1]; rfl⟩

/-- Every `ok` of the device step appended exactly the returned device, whose
site and serial are the lookup key of the existence check. -/
theorem step_device_ok_inv (ctx : Ctx) (dev : DeviceRec) (role : Nat)
    (dt : DevType) (st st2 : NbState) (evs : List Ev) (d : NbDevice)
    (h : step_device ctx dev role dt st = .ok st2 evs d) :
    st.devices.filter (dev_key ctx dev) = [] ∧
      st2.devices = st.devices ++ [d] ∧
      d.site = ctx.site_id ∧ d.serial = dev.serial ∧
      st2.vrfs = st.vrfs ∧ st2.device_types = st.device_types ∧
      st2.interface_templates = st.interface_templates ∧
      st2.interfaces = st.interfaces ∧ st2.prefixes = st.prefixes ∧
      st2.ip_addresses = st.ip_addresses ∧
      st2.postable_fields = st.postable_fields := by
  rw [step_device_eq] at h
  cases hd : st.devices.filter (dev_key ctx dev) with
  | nil =>
    rw [hd] at h
    cases hrk : role_key_of st with
    | none =>
      rw [hrk] at h
      simp at h
    | some rk =>
      rw [hrk] at h
      cases hn1 : name_taken st ctx dev.name with
      | false =>
        rw [hn1] at h
        simp only [Bool.false_eq_true, if_false, StepRes.ok.injEq] at h
        obtain ⟨h1, _, h3⟩ := h
        subst h1
        subst h3
        exact ⟨rfl, rfl, rfl, rfl, rfl, rfl, rfl, rfl, rfl, rfl, rfl⟩
      | true =>
        rw [hn1] at h
        cases hn2 : name_taken st ctx (dev.name ++ "_" ++ dev.serial) with
        | false =>
          simp only [hn2, Bool.false_eq_true, if_false, if_true,
            StepRes.ok.injEq] at h
          obtain ⟨h1, _, h3⟩ := h
          subst h1
          subst h3
          exact ⟨rfl, rfl, rfl, rfl, rfl, rfl, rfl, rfl, rfl, rfl, rfl⟩
        | true =>
          simp only [hn2, if_true] at h
          simp at h
  | cons d0 ds =>
    rw [hd] at h
    cases ds with
    | nil => simp at h
    | cons d2 ds2 => simp at h

theorem filter_map_comm {α : Type} (l : List α) (f : α → α) (p : α → Bool)
    (hp : ∀ x, p (f x) = p x) : (l.map f).filter p = (l.filter p).map f := by
  induction l with
  | nil => rfl
  | cons x t ih =>
    cases hx : p x with
    | false => simp [hp, hx, ih]
    | true => simp [hp, hx, ih]

/-- The update performed by `set_primary` on a single device record. -/
def prim_upd (dev_id ip_id : Nat) (d : NbDevice) : NbDevice :=
  if d.id == dev_id then { d with primary_ip4 := some ip_id } else d

theorem set_primary_devices (st : NbState) (dev_id ip_id : Nat) :
    (set_primary st dev_id ip_id).devices =
      st.devices.map (prim_upd dev_id ip_id) := by
  rfl

theorem prim_upd_fields (dev_id ip_id : Nat) (d : NbDevice) :
    (prim_upd dev_id ip_id d).name = d.name ∧
    (prim_upd dev_id ip_id d).serial = d.serial ∧
    (prim_upd dev_id ip_id d).site = d.site ∧
    (prim_upd dev_id ip_id d).tenant = d.tenant ∧
    (prim_upd dev_id ip_id d).device_type = d.device_type ∧
    (prim_upd dev_id ip_id d).role = d.role ∧
    (prim_upd dev_id ip_id d).role_key = d.role_key := by
  unfold prim_upd
  cases hc : d.id == dev_id with
  | false => simp
  | true => simp

theorem prim_upd_dev_key (ctx : Ctx) (dev : DeviceRec) (dev_id ip_id : Nat)
    (d : NbDevice) :
    dev_key ctx dev (prim_upd dev_id ip_id d) = dev_key ctx dev d := by
  unfold prim_upd dev_key
  cases hc : d.id == dev_id with
  | false => simp
  | true => simp

theorem step_ip_addr_frame (ctx : Ctx) (vrf : Vrf) (nb_device : NbDevice)
    (iface : Iface) (ipStr : String) (st : NbState) (evs : List Ev) :
    (step_ip_addr ctx vrf nb_device iface ipStr st evs).1.vrfs = st.vrfs ∧
    (step_ip_addr ctx vrf nb_device iface ipStr st evs).1.device_types =
      st.device_types ∧
    (step_ip_addr ctx vrf nb_device iface ipStr st evs).1.interface_templates =
      st.interface_templates ∧
    (step_ip_addr ctx vrf nb_device iface ipStr st evs).1.interfaces =
      st.interfaces ∧
    (step_ip_addr ctx vrf nb_device iface ipStr st evs).1.prefixes =
      st.prefixes ∧
    (step_ip_addr ctx vrf nb_device iface ipStr st evs).1.postable_fields =
      st.postable_fields := by
  unfold step_ip_addr set_primary
  cases hip : st.ip_addresses.filter
      (fun a => a.address == ipStr && a.vrf_id == vrf.id &&
        a.tenant_id == ctx.tenant_id) with
  | nil => simp
  | cons a as =>
    cases as with
    | nil => simp
    | cons a2 as2 => simp

theorem step_ip_addr_devices (ctx : Ctx) (vrf : Vrf) (nb_device : NbDevice)
    (iface : Iface) (ipStr : String) (st : NbState) (evs : List Ev) :
    (step_ip_addr ctx vrf nb_device iface ipStr st evs).1.devices =
        st.devices ∨
      ∃ ipid, (step_ip_addr ctx vrf nb_device iface ipStr st evs).1.devices =
        st.devices.map (prim_upd nb_device.id ipid) := by
  unfold step_ip_addr
  cases hip : st.ip_addresses.filter
      (fun a => a.address == ipStr && a.vrf_id == vrf.id &&
        a.tenant_id == ctx.tenant_id) with
  | nil =>
    refine Or.inr ⟨st.next_id, ?_⟩
    simp [set_primary_devices]
  | cons a as =>
    cases as with
    | nil =>
      refine Or.inr ⟨a.id, ?_⟩
      simp [set_primary_devices]
    | cons a2 as2 => exact Or.inl rfl

theorem step_ip_frame (ctx : Ctx) (dev : DeviceRec) (vrf : Vrf)
    (nb_device : NbDevice) (st : NbState) :
    (step_ip ctx dev vrf nb_device st).1.vrfs = st.vrfs ∧
    (step_ip ctx dev vrf nb_device st).1.device_types = st.device_types ∧
    (step_ip ctx dev vrf nb_device st).1.interface_templates =
      st.interface_templates ∧
    (step_ip ctx dev vrf nb_device st).1.prefixes = st.prefixes ∧
    (step_ip ctx dev vrf nb_device st).1.postable_fields =
      st.postable_fields := by
  unfold step_ip
  cases hv : is_valid_ip dev.ip with
  | false => simp
  | true =>
    simp only [hv, Bool.not_true, Bool.false_eq_true, if_false]
    cases hpf : st.prefixes.filter
        (fun p => p.vrf_id == vrf.id && cidr_contains p.cidr dev.ip) with
    | nil => simp
    | cons p ps =>
      simp only
      cases hif : st.interfaces.filter
          (fun i => i.device == nb_device.id && i.name == "vlan.1") with
      | nil =>
        have hfr := step_ip_addr_frame ctx vrf nb_device
          ⟨st.next_id, nb_device.id, "vlan.1", "virtual", true, vrf.id⟩
          (dev.ip ++ "/" ++ mask_of_cidr p.cidr)
          { st with
            interfaces := st.interfaces ++
              [⟨st.next_id, nb_device.id, "vlan.1", "virtual", true, vrf.id⟩]
            next_id := st.next_id + 1 }
          [⟨.iface, true⟩]
        exact ⟨hfr.1, hfr.2.1, hfr.2.2.1, hfr.2.2.2.2.1, hfr.2.2.2.2.2⟩
      | cons i is =>
        cases is with
        | nil =>
          have hfr := step_ip_addr_frame ctx vrf nb_device i
            (dev.ip ++ "/" ++ mask_of_cidr p.cidr) st []
          exact ⟨hfr.1, hfr.2.1, hfr.2.2.1, hfr.2.2.2.2.1, hfr.2.2.2.2.2⟩
        | cons i2 is2 => simp

theorem step_ip_devices (ctx : Ctx) (dev : DeviceRec) (vrf : Vrf)
    (nb_device : NbDevice) (st : NbState) :
    (step_ip ctx dev vrf nb_device st).1.devices = st.devices ∨
      ∃ ipid, (step_ip ctx dev vrf nb_device st).1.devices =
        st.devices.map (prim_upd nb_device.id ipid) := by
  unfold step_ip
  cases hv : is_valid_ip dev.ip with
  | false => simp
  | true =>
    simp only [hv, Bool.not_true, Bool.false_eq_true, if_false]
    cases hpf : st.prefixes.filter
        (fun p => p.vrf_id == vrf.id && cidr_contains p.cidr dev.ip) with
    | nil => simp
    | cons p ps =>
      simp only
      cases hif : st.interfaces.filter
          (fun i => i.device == nb_device.id && i.name == "vlan.1") with
      | nil =>
        exact step_ip_addr_devices ctx vrf nb_device
          ⟨st.next_id, nb_device.id, "vlan.1", "virtual", true, vrf.id⟩
          (dev.ip ++ "/" ++ mask_of_cidr p.cidr)
          { st with
            interfaces := st.interfaces ++
              [⟨st.next_id, nb_device.id, "vlan.1", "virtual", true, vrf.id⟩]
            next_id := st.next_id + 1 }
          [⟨.iface, true⟩]
      | cons i is =>
        cases is with
        | nil =>
          exact step_ip_addr_devices ctx vrf nb_device i
            (dev.ip ++ "/" ++ mask_of_cidr p.cidr) st []
        | cons i2 is2 => exact Or.inl rfl

/-- The IP block never changes which devices match an existence-check key:
at most their `primary_ip4` is filled in. -/
theorem step_ip_devices_filter_len (ctx : Ctx) (dev dev2 : DeviceRec)
    (vrf : Vrf) (nb_device : NbDevice) (st : NbState) :
    ((step_ip ctx dev vrf nb_device st).1.devices.filter
        (dev_key ctx dev2)).length =
      (st.devices.filter (dev_key ctx dev2)).length := by
  rcases step_ip_devices ctx dev vrf nb_device st with h | ⟨ipid, h⟩
  · rw [h]
  · rw [h, filter_map_comm _ _ _ (fun x => prim_upd_dev_key ctx dev2 _ _ x),
      List.length_map]

/-- Devices survive the IP block with every field except `primary_ip4`
unchanged. -/
theorem step_ip_devices_mem (ctx : Ctx) (dev : DeviceRec) (vrf : Vrf)
    (nb_device : NbDevice) (st : NbState) (x : NbDevice)
    (hx : x ∈ st.devices) :
    ∃ y ∈ (step_ip ctx dev vrf nb_device st).1.devices,
      y.name = x.name ∧ y.serial = x.serial ∧ y.site = x.site ∧
      y.tenant = x.tenant ∧ y.device_type = x.device_type ∧
      y.role = x.role ∧ y.role_key = x.role_key := by
  rcases step_ip_devices ctx dev vrf nb_device st with h | ⟨ipid, h⟩
  · exact ⟨x, by rw [h]; exact hx, rfl, rfl, rfl, rfl, rfl, rfl, rfl⟩
  · refine ⟨prim_upd nb_device.id ipid x, ?_, ?_⟩
    · rw [h]
      exact List.mem_map_of_mem _ hx
    · have hfl := prim_upd_fields nb_device.id ipid x
      exact ⟨hfl.1, hfl.2.1, hfl.2.2.1, hfl.2.2.2.1, hfl.2.2.2.2.1,
        hfl.2.2.2.2.2.1, hfl.2.2.2.2.2.2⟩

theorem step_ip_of_invalid (ctx : Ctx) (dev : DeviceRec) (vrf : Vrf)
    (nb_device : NbDevice) (st : NbState) (h : is_valid_ip dev.ip = false) :
    step_ip ctx dev vrf nb_device st = (st, [], .skippedInvalidIp) := by
  simp [step_ip, h]

theorem step_ip_of_no_pfx (ctx : Ctx) (dev : DeviceRec) (vrf : Vrf)
    (nb_device : NbDevice) (st : NbState) (hv : is_valid_ip dev.ip = true)
    (h : st.prefixes.filter
        (fun p => p.vrf_id == vrf.id && cidr_contains p.cidr dev.ip) = []) :
    step_ip ctx dev vrf nb_device st = (st, [], .skippedNoPfx) := by
  simp [step_ip, hv, h]

/-! ## Claims about `process_device` -/

/-- C5: a device record whose serial is missing or empty makes
`process_device` return at the serial check: no create call of any kind is
issued and the inventory state is unchanged. -/
theorem missing_serial_no_creates (ctx : Ctx) (st : NbState)
    (dev : DeviceRec) (h : dev.serial = "") :
    process_device ctx st dev = (st, [], .skippedMissingSerial) := by
  simp [process_device, h]

theorem missing_serial_no_creates_witness :
    ((⟨"sw1", "US-8", "aa:bb", "10.0.0.5", "", "false", []⟩ :
        DeviceRec).serial = "") ∧
      process_device ⟨10, 11, 20, 30, "Ubiquity Networks", 40, "HQ"⟩
          ⟨[], [], [], [], [], [], [], ["role"], 100⟩
          ⟨"sw1", "US-8", "aa:bb", "10.0.0.5", "", "false", []⟩ =
        (⟨[], [], [], [], [], [], [], ["role"], 100⟩, [],
          .skippedMissingSerial) :=
  ⟨rfl, missing_serial_no_creates _ _ _ rfl⟩

/-- C2 (amended): re-running `process_device` on the state produced by a
first run leaves the state unchanged and issues no successful create call:
every fetch-or-create step finds the entity the first run ensured, and an
existing `(site, serial)` device short-circuits the remaining steps.  (The
second run can still repeat the rejected device-create calls of a device
whose creation failed with name conflicts, see the counterexample.) -/
theorem second_run_is_noop (ctx : Ctx) (st : NbState) (dev : DeviceRec) :
    (process_device ctx (process_device ctx st dev).1 dev).1 =
      (process_device ctx st dev).1 ∧
    ((process_device ctx (process_device ctx st dev).1 dev).2.1.filter
        (fun e => e.ok)) = [] := by
  cases hs : dev.serial == "" with
  | true => simp [process_device, hs]
  | false =>
    rcases hv : step_vrf ctx st with ⟨st1, evs1, v⟩
    obtain ⟨vs, hvs⟩ := step_vrf_out ctx st
    rw [hv] at hvs
    dsimp only at hvs
    cases hdt : step_devtype ctx dev st1 with
    | stop st2 evs2 o =>
      obtain ⟨hst2, hevs2, ho, a, b, l, hmulti⟩ :=
        step_devtype_stop ctx dev st1 st2 evs2 o hdt
      have hvrf2 : step_vrf ctx st1 = (st1, [], v) :=
        step_vrf_of_present ctx st1 v vs hvs
      have hdt1 : step_devtype ctx dev st1 = .stop st1 [] .errException := by
        rw [hdt, hst2, hevs2, ho]
      have hrun1 : process_device ctx st dev =
          (st1, evs1 ++ [], .errException) := by
        simp [process_device, hs, hv, hdt1]
      have hrun2 : process_device ctx st1 dev =
          (st1, [], .errException) := by
        simp [process_device, hs, hvrf2, hdt1]
      rw [hrun1]
      simp [hrun2]
    | ok st2 evs2 t =>
      have hdtf : st2.device_types.filter (dt_match ctx dev) = [t] :=
        step_devtype_ok_filter ctx dev st1 st2 evs2 t hdt
      have hfr2 := step_devtype_frame ctx dev st1
      rw [hdt] at hfr2
      dsimp only [StepRes.state] at hfr2
      have hvrf2 : step_vrf ctx st2 = (st2, [], v) :=
        step_vrf_of_present ctx st2 v vs (by rw [hfr2.1]; exact hvs)
      have hdt2 : step_devtype ctx dev st2 = .ok st2 [] t :=
        step_devtype_of_unique ctx dev st2 t hdtf
      cases hdd : step_device ctx dev (select_role ctx dev) t st2 with
      | stop st3 evs3 o =>
        obtain ⟨hst3, hevs3⟩ :=
          step_device_stop_inv ctx dev _ t st2 st3 evs3 o hdd
        have hdd1 : step_device ctx dev (select_role ctx dev) t st2 =
            .stop st2 evs3 o := by
          rw [hdd, hst3]
        have hrun1 : process_device ctx st dev =
            (st2, evs1 ++ evs2 ++ evs3, o) := by
          simp [process_device, hs, hv, hdt, hdd1]
        have hrun2 : process_device ctx st2 dev =
            (st2, [] ++ [] ++ evs3, o) := by
          simp [process_device, hs, hvrf2, hdt2, hdd1]
        rw [hrun1]
        simp [hrun2, hevs3]
      | ok st3 evs3 d =>
        obtain ⟨hdf2, hdevs3, hdsite, hdserial, h3vrfs, h3dts, _h3tpl,
          _h3ifs, _h3pfx, _h3ips, _h3post⟩ :=
          step_device_ok_inv ctx dev _ t st2 st3 evs3 d hdd
        rcases hip : step_ip ctx dev v d st3 with ⟨st4, evs4, o4⟩
        have hrun1 : process_device ctx st dev =
            (st4, evs1 ++ evs2 ++ evs3 ++ evs4, o4) := by
          simp [process_device, hs, hv, hdt, hdd, hip]
        have hfr4 := step_ip_frame ctx dev v d st3
        rw [hip] at hfr4
        dsimp only at hfr4
        have hflen := step_ip_devices_filter_len ctx dev dev v d st3
        rw [hip] at hflen
        dsimp only at hflen
        have h3filter : st3.devices.filter (dev_key ctx dev) = [d] := by
          rw [hdevs3, List.filter_append, hdf2]
          simp [dev_key, hdsite, hdserial]
        have hlen1 : (st4.devices.filter (dev_key ctx dev)).length = 1 := by
          rw [hflen, h3filter]
          rfl
        cases hy : st4.devices.filter (dev_key ctx dev) with
        | nil =>
          rw [hy] at hlen1
          simp at hlen1
        | cons y ys =>
          have hvrf4 : st4.vrfs.filter
              (fun x => x.name == vrf_name_of ctx) = v :: vs := by
            rw [hfr4.1, h3vrfs, hfr2.1]
            exact hvs
          have hvrf2b : step_vrf ctx st4 = (st4, [], v) :=
            step_vrf_of_present ctx st4 v vs hvrf4
          have hdt4 : st4.device_types.filter (dt_match ctx dev) = [t] := by
            rw [hfr4.2.1, h3dts]
            exact hdtf
          have hdt2b : step_devtype ctx dev st4 = .ok st4 [] t :=
        step_devtype_of_unique ctx dev st4 t hdt4
          obtain ⟨o2, hdd2⟩ :=
            step_device_of_present ctx dev (select_role ctx dev) t st4 y ys hy
          have hrun2 : process_device ctx st4 dev = (st4, [], o2) := by
            simp [process_device, hs, hvrf2b, hdt2b, hdd2]
          rw [hrun1]
          simp [hrun2]

theorem role_key_of_congr (st st' : NbState)
    (h : st.postable_fields = st'.postable_fields) :
    role_key_of st = role_key_of st' := by
  unfold role_key_of get_postable_fields
  rw [h]

theorem name_taken_congr (st st' : NbState) (ctx : Ctx) (n : String)
    (h : st.devices = st'.devices) :
    name_taken st ctx n = name_taken st' ctx n := by
  unfold name_taken
  rw [h]

theorem filter_kind_nil (evs : List Ev) (k : EvKind)
    (h : ∀ e ∈ evs, e.kind ≠ k) :
    evs.filter (fun e => e.kind == k) = [] :=
  List.filter_eq_nil_iff.mpr (fun e he => by simp [h e he])

/-- C1 (amended): for a device whose IP is syntactically valid but contained
in no prefix within the device's VRF, `process_device` returns at the prefix
lookup with a warning, not a fatal error: the VRF, device-type and device
creation steps have proceeded, but neither the `vlan.1` interface nor any
IPAddress is created (the prefix lookup happens before interface creation in
the code, so the interface step does not proceed). -/
theorem no_containing_pfx_skips_ip_and_iface (ctx : Ctx) (st : NbState)
    (dev : DeviceRec) (rk : String)
    (hser : dev.serial ≠ "")
    (hdtlen : (st.device_types.filter (dt_match ctx dev)).length ≤ 1)
    (hnodev : st.devices.filter (dev_key ctx dev) = [])
    (hrk : role_key_of st = some rk)
    (hnc : name_taken st ctx dev.name = false)
    (hip : is_valid_ip dev.ip = true)
    (hpfx : ∀ p ∈ st.prefixes,
      (p.vrf_id == ((step_vrf ctx st).2.2).id &&
        cidr_contains p.cidr dev.ip) = false) :
    (process_device ctx st dev).2.2 = .skippedNoPfx ∧
    ((process_device ctx st dev).2.2).isFatal = false ∧
    (process_device ctx st dev).1.interfaces = st.interfaces ∧
    (process_device ctx st dev).1.ip_addresses = st.ip_addresses ∧
    (∃ d, (process_device ctx st dev).1.devices = st.devices ++ [d] ∧
      d.serial = dev.serial ∧ d.site = ctx.site_id ∧ d.name = dev.name) ∧
    ((process_device ctx st dev).2.1.filter
      (fun e => e.kind == EvKind.device)) = [⟨.device, true⟩] ∧
    ((process_device ctx st dev).2.1.filter
      (fun e => e.kind == EvKind.iface)) = [] ∧
    ((process_device ctx st dev).2.1.filter
      (fun e => e.kind == EvKind.ipaddr)) = [] ∧
    (∃ vs, (process_device ctx st dev).1.vrfs.filter
      (fun x => x.name == vrf_name_of ctx) = (step_vrf ctx st).2.2 :: vs) ∧
    (∃ t, (process_device ctx st dev).1.device_types.filter
      (dt_match ctx dev) = [t]) := by
  have hserb : (dev.serial == "") = false := beq_eq_false_iff_ne.mpr hser
  rcases hv : step_vrf ctx st with ⟨st1, evs1, v⟩
  have hfr1 := step_vrf_frame ctx st
  rw [hv] at hfr1
  dsimp only at hfr1
  have hevs1 := step_vrf_evs ctx st
  rw [hv] at hevs1
  dsimp only at hevs1
  obtain ⟨vs, hvs⟩ := step_vrf_out ctx st
  rw [hv] at hvs
  dsimp only at hvs
  cases hdt : step_devtype ctx dev st1 with
  | stop st2 evs2 o =>
    exfalso
    obtain ⟨_, _, _, a, b, l, hmulti⟩ :=
      step_devtype_stop ctx dev st1 st2 evs2 o hdt
    rw [hfr1.1] at hmulti
    rw [hmulti] at hdtlen
    simp at hdtlen
  | ok st2 evs2 t =>
    have hdtf : st2.device_types.filter (dt_match ctx dev) = [t] :=
      step_devtype_ok_filter ctx dev st1 st2 evs2 t hdt
    have hevs2 := step_devtype_ok_evs ctx dev st1 st2 evs2 t hdt
    have hfr2 := step_devtype_frame ctx dev st1
    rw [hdt] at hfr2
    dsimp only [StepRes.state] at hfr2
    have h2devs : st2.devices = st.devices := by rw [hfr2.2.1, hfr1.2.2.1]
    have h2ifs : st2.interfaces = st.interfaces := by
      rw [hfr2.2.2.1, hfr1.2.2.2.1]
    have h2pfx : st2.prefixes = st.prefixes := by
      rw [hfr2.2.2.2.1, hfr1.2.2.2.2.1]
    have h2ips : st2.ip_addresses = st.ip_addresses := by
      rw [hfr2.2.2.2.2.1, hfr1.2.2.2.2.2.1]
    have h2post : st2.postable_fields = st.postable_fields := by
      rw [hfr2.2.2.2.2.2, hfr1.2.2.2.2.2.2]
    have h2vrfs : st2.vrfs = st1.vrfs := hfr2.1
    have hrk2 : role_key_of st2 = some rk := by
      rw [role_key_of_congr st2 st h2post]
      exact hrk
    have hnodev2 : st2.devices.filter (dev_key ctx dev) = [] := by
      rw [h2devs]
      exact hnodev
    have hnc2 : name_taken st2 ctx dev.name = false := by
      rw [name_taken_congr st2 st ctx dev.name h2devs]
      exact hnc
    have hdd := step_device_of_clean ctx dev (select_role ctx dev) t st2 rk
      hnodev2 hrk2 hnc2
    have hpfind : ({ st2 with
        devices := st2.devices ++
          [mk_device st2.next_id dev.name t.id ctx.tenant_id ctx.site_id
            dev.serial rk (select_role ctx dev)]
        next_id := st2.next_id + 1 } : NbState).prefixes.filter
        (fun p => p.vrf_id == v.id && cidr_contains p.cidr dev.ip) = [] := by
      refine List.filter_eq_nil_iff.mpr (fun p hp => ?_)
      have hp' : p ∈ st.prefixes := by
        rw [← h2pfx]
        exact hp
      have := hpfx p hp'
      rw [hv] at this
      simp only at this
      simp [this]
    have hstep := step_ip_of_no_pfx ctx dev v
      (mk_device st2.next_id dev.name t.id ctx.tenant_id ctx.site_id
        dev.serial rk (select_role ctx dev))
      ({ st2 with
        devices := st2.devices ++
          [mk_device st2.next_id dev.name t.id ctx.tenant_id ctx.site_id
            dev.serial rk (select_role ctx dev)]
        next_id := st2.next_id + 1 }) hip hpfind
    have hrun : process_device ctx st dev =
        ({ st2 with
          devices := st2.devices ++
            [mk_device st2.next_id dev.name t.id ctx.tenant_id ctx.site_id
              dev.serial rk (select_role ctx dev)]
          next_id := st2.next_id + 1 },
          evs1 ++ evs2 ++ [⟨.device, true⟩] ++ [], .skippedNoPfx) := by
      simp [process_device, hserb, hv, hdt, hdd, hstep]
    rw [hrun]
    have hevs1dev : evs1.filter (fun e => e.kind == EvKind.device) = [] := by
      rcases hevs1 with h1 | h1 <;> rw [h1] <;> decide
    have hevs1if : evs1.filter (fun e => e.kind == EvKind.iface) = [] := by
      rcases hevs1 with h1 | h1 <;> rw [h1] <;> decide
    have hevs1ip : evs1.filter (fun e => e.kind == EvKind.ipaddr) = [] := by
      rcases hevs1 with h1 | h1 <;> rw [h1] <;> decide
    have hevs2dev : evs2.filter (fun e => e.kind == EvKind.device) = [] :=
      filter_kind_nil evs2 _ (fun e he => by
        rcases hevs2 e he with h1 | h1 <;> rw [h1] <;> decide)
    have hevs2if : evs2.filter (fun e => e.kind == EvKind.iface) = [] :=
      filter_kind_nil evs2 _ (fun e he => by
        rcases hevs2 e he with h1 | h1 <;> rw [h1] <;> decide)
    have hevs2ip : evs2.filter (fun e => e.kind == EvKind.ipaddr) = [] :=
      filter_kind_nil evs2 _ (fun e he => by
        rcases hevs2 e he with h1 | h1 <;> rw [h1] <;> decide)
    refine ⟨rfl, rfl, h2ifs, h2ips,
      ⟨mk_device st2.next_id dev.name t.id ctx.tenant_id ctx.site_id
        dev.serial rk (select_role ctx dev), by rw [h2devs], rfl, rfl, rfl⟩,
      ?_, ?_, ?_, ⟨vs, ?_⟩, ⟨t, ?_⟩⟩
    · simp [List.filter_append, hevs1dev, hevs2dev]
    · simp [List.filter_append, hevs1if, hevs2if]
    · simp [List.filter_append, hevs1ip, hevs2ip]
    · dsimp only
      rw [show ({ st2 with
        devices := st2.devices ++
          [mk_device st2.next_id dev.name t.id ctx.tenant_id ctx.site_id
            dev.serial rk (select_role ctx dev)]
        next_id := st2.next_id + 1 } : NbState).vrfs = st2.vrfs from rfl,
        h2vrfs]
      exact hvs
    · rw [show ({ st2 with
        devices := st2.devices ++
          [mk_device st2.next_id dev.name t.id ctx.tenant_id ctx.site_id
            dev.serial rk (select_role ctx dev)]
        next_id := st2.next_id + 1 } : NbState).device_types =
          st2.device_types from rfl]
      exact hdtf

theorem any_map_pres {α : Type} (l : List α) (f : α → α) (p : α → Bool)
    (hp : ∀ x, p (f x) = p x) : (l.map f).any p = l.any p := by
  induction l with
  | nil => rfl
  | cons x t ih => simp [hp, ih]

theorem name_ne_suffix (n s : String) (h : s ≠ "") :
    n ≠ n ++ "_" ++ s := by
  intro he
  have hl : n.length = n.length + 1 + s.length := by
    conv_lhs => rw [he]
    rw [String.length_append, String.length_append]
    rfl
  have hs : s.length = 0 := by omega
  have hd : s.data = [] := List.length_eq_zero.mp hs
  exact h (String.ext hd)

theorem step_ip_addr_evs (ctx : Ctx) (vrf : Vrf) (nb_device : NbDevice)
    (iface : Iface) (ipStr : String) (st : NbState) (evs : List Ev) :
    ∀ e ∈ (step_ip_addr ctx vrf nb_device iface ipStr st evs).2.1,
      e ∈ evs ∨ e.kind = EvKind.ipaddr := by
  unfold step_ip_addr
  cases hip : st.ip_addresses.filter
      (fun a => a.address == ipStr && a.vrf_id == vrf.id &&
        a.tenant_id == ctx.tenant_id) with
  | nil =>
    intro e he
    simp only [List.mem_append] at he
    rcases he with he | he
    · exact Or.inl he
    · simp at he
      rw [he]
      exact Or.inr rfl
  | cons a as =>
    cases as with
    | nil => exact fun e he => Or.inl he
    | cons a2 as2 => exact fun e he => Or.inl he

theorem step_ip_evs (ctx : Ctx) (dev : DeviceRec) (vrf : Vrf)
    (nb_device : NbDevice) (st : NbState) :
    ∀ e ∈ (step_ip ctx dev vrf nb_device st).2.1,
      e.kind = EvKind.iface ∨ e.kind = EvKind.ipaddr := by
  unfold step_ip
  cases hv : is_valid_ip dev.ip with
  | false => simp
  | true =>
    simp only [hv, Bool.not_true, Bool.false_eq_true, if_false]
    cases hpf : st.prefixes.filter
        (fun p => p.vrf_id == vrf.id && cidr_contains p.cidr dev.ip) with
    | nil => simp
    | cons p ps =>
      simp only
      cases hif : st.interfaces.filter
          (fun i => i.device == nb_device.id && i.name == "vlan.1") with
      | nil =>
        intro e he
        rcases step_ip_addr_evs ctx vrf nb_device
            ⟨st.next_id, nb_device.id, "vlan.1", "virtual", true, vrf.id⟩
            (dev.ip ++ "/" ++ mask_of_cidr p.cidr)
            { st with
              interfaces := st.interfaces ++
                [⟨st.next_id, nb_device.id, "vlan.1", "virtual", true,
                  vrf.id⟩]
              next_id := st.next_id + 1 }
            [⟨.iface, true⟩] e he with h1 | h1
        · simp at h1
          rw [h1]
          exact Or.inl rfl
        · exact Or.inr h1
      | cons i is =>
        cases is with
        | nil =>
          intro e he
          rcases step_ip_addr_evs ctx vrf nb_device i
              (dev.ip ++ "/" ++ mask_of_cidr p.cidr) st [] e he with h1 | h1
          · simp at h1
          · exact Or.inr h1
        | cons i2 is2 => simp

theorem prim_upd_name_pred (ctx : Ctx) (nm : String) (i ip : Nat)
    (x : NbDevice) :
    ((prim_upd i ip x).site == ctx.site_id && (prim_upd i ip x).name == nm) =
      (x.site == ctx.site_id && x.name == nm) := by
  unfold prim_upd
  cases hc : x.id == i with
  | false => simp
  | true => simp

theorem collision_second_device_retry (ctx : Ctx) (st : NbState)
    (d1 d2 : DeviceRec) (rk : String)
    (hname : d2.name = d1.name)
    (hs1 : d1.serial ≠ "") (hs2 : d2.serial ≠ "")
    (hsne : d1.serial ≠ d2.serial)
    (hmodel : d2.model = d1.model)
    (hdtlen : (st.device_types.filter (dt_match ctx d1)).length ≤ 1)
    (hnodev1 : st.devices.filter (dev_key ctx d1) = [])
    (hnodev2 : st.devices.filter (dev_key ctx d2) = [])
    (hrk : role_key_of st = some rk)
    (hnc1 : name_taken st ctx d1.name = false)
    (hnc2 : name_taken st ctx (d1.name ++ "_" ++ d2.serial) = false) :
    ((process_device ctx (process_device ctx st d1).1 d2).2.1.filter
        (fun e => e.kind == EvKind.device)) =
      [⟨.device, false⟩, ⟨.device, true⟩] ∧
    (∃ x ∈ (process_device ctx (process_device ctx st d1).1 d2).1.devices,
      x.name = d1.name ∧ x.serial = d1.serial) ∧
    (∃ y ∈ (process_device ctx (process_device ctx st d1).1 d2).1.devices,
      y.name = d2.name ++ "_" ++ d2.serial ∧ y.serial = d2.serial ∧
      y.site = ctx.site_id ∧ y.tenant = ctx.tenant_id ∧
      y.role_key = rk ∧ y.role = select_role ctx d2) := by
  have hserb1 : (d1.serial == "") = false := beq_eq_false_iff_ne.mpr hs1
  have hserb2 : (d2.serial == "") = false := beq_eq_false_iff_ne.mpr hs2
  rcases hv : step_vrf ctx st with ⟨st1, evs1, v⟩
  have hfr1 := step_vrf_frame ctx st
  rw [hv] at hfr1
  dsimp only at hfr1
  obtain ⟨vs, hvs⟩ := step_vrf_out ctx st
  rw [hv] at hvs
  dsimp only at hvs
  cases hdt : step_devtype ctx d1 st1 with
  | stop st2 evs2 o =>
    exfalso
    obtain ⟨_, _, _, a, b, l, hmulti⟩ :=
      step_devtype_stop ctx d1 st1 st2 evs2 o hdt
    rw [hfr1.1] at hmulti
    rw [hmulti] at hdtlen
    simp at hdtlen
  | ok st2 evs2 t =>
    have hdtf : st2.device_types.filter (dt_match ctx d1) = [t] :=
      step_devtype_ok_filter ctx d1 st1 st2 evs2 t hdt
    have hfr2 := step_devtype_frame ctx d1 st1
    rw [hdt] at hfr2
    dsimp only [StepRes.state] at hfr2
    have h2devs : st2.devices = st.devices := by rw [hfr2.2.1, hfr1.2.2.1]
    have h2post : st2.postable_fields = st.postable_fields := by
      rw [hfr2.2.2.2.2.2, hfr1.2.2.2.2.2.2]
    have hrk2 : role_key_of st2 = some rk := by
      rw [role_key_of_congr st2 st h2post]
      exact hrk
    have hnodev1b : st2.devices.filter (dev_key ctx d1) = [] := by
      rw [h2devs]
      exact hnodev1
    have hnc1b : name_taken st2 ctx d1.name = false := by
      rw [name_taken_congr st2 st ctx d1.name h2devs]
      exact hnc1
    have hdd := step_device_of_clean ctx d1 (select_role ctx d1) t st2 rk
      hnodev1b hrk2 hnc1b
    set dev1 : NbDevice := mk_device st2.next_id d1.name t.id ctx.tenant_id
      ctx.site_id d1.serial rk (select_role ctx d1) with hdev1
    set st3 : NbState := { st2 with
      devices := st2.devices ++ [dev1]
      next_id := st2.next_id + 1 } with hst3
    rcases hip1 : step_ip ctx d1 v dev1 st3 with ⟨stF, evs4, o4⟩
    have hrun1 : process_device ctx st d1 =
        (stF, evs1 ++ evs2 ++ [⟨.device, true⟩] ++ evs4, o4) := by
      simp [process_device, hserb1, hv, hdt, hdd, hip1]
    have hfrF := step_ip_frame ctx d1 v dev1 st3
    rw [hip1] at hfrF
    dsimp only at hfrF
    have hshape := step_ip_devices ctx d1 v dev1 st3
    rw [hip1] at hshape
    dsimp only at hshape
    have hFvrfs : stF.vrfs.filter (fun x => x.name == vrf_name_of ctx) =
        v :: vs := by
      rw [hfrF.1, hfr2.1]
      exact hvs
    have hFdtmatch : (dt_match ctx d2) = (dt_match ctx d1) :=
      funext (fun x => by simp [dt_match, hmodel])
    have hFdt : stF.device_types.filter (dt_match ctx d2) = [t] := by
      rw [hFdtmatch, hfrF.2.1]
      exact hdtf
    have hFpost : stF.postable_fields = st.postable_fields := by
      rw [hfrF.2.2.2.2, h2post]
    have hFrk : role_key_of stF = some rk := by
      rw [role_key_of_congr stF st hFpost]
      exact hrk
    have hdev1site : dev1.site = ctx.site_id := rfl
    have hdev1name : dev1.name = d1.name := rfl
    have hdev1serial : dev1.serial = d1.serial := rfl
    have hLfilter : (st2.devices ++ [dev1]).filter (dev_key ctx d2) = [] := by
      rw [List.filter_append, show st2.devices.filter (dev_key ctx d2) = []
        from by rw [h2devs]; exact hnodev2]
      simp [dev_key, hdev1site, hdev1serial,
        beq_eq_false_iff_ne.mpr hsne]
    have hLname : (st2.devices ++ [dev1]).any
        (fun d => d.site == ctx.site_id && d.name == d2.name) = true := by
      rw [List.any_append]
      have : ([dev1].any
          (fun d => d.site == ctx.site_id && d.name == d2.name)) = true := by
        simp [hdev1site, hdev1name, hname]
      rw [this]
      simp
    have hLretry : (st2.devices ++ [dev1]).any
        (fun d => d.site == ctx.site_id &&
          d.name == (d2.name ++ "_" ++ d2.serial)) = false := by
      rw [List.any_append, Bool.or_eq_false_iff]
      constructor
      · have h0 : st.devices.any (fun d => d.site == ctx.site_id &&
            d.name == (d1.name ++ "_" ++ d2.serial)) = false := hnc2
        rw [h2devs, hname]
        exact h0
      · simp [hdev1site, hdev1name, hname,
          beq_eq_false_iff_ne.mpr (name_ne_suffix d1.name d2.serial hs2)]
    have hFfilter : stF.devices.filter (dev_key ctx d2) = [] := by
      rcases hshape with hsh | ⟨ipid, hsh⟩
      · rw [hsh]
        exact hLfilter
      · rw [hsh, filter_map_comm _ _ _
          (fun x => prim_upd_dev_key ctx d2 _ _ x), hLfilter]
        rfl
    have hFnc1 : name_taken stF ctx d2.name = true := by
      unfold name_taken
      rcases hshape with hsh | ⟨ipid, hsh⟩
      · rw [hsh]
        exact hLname
      · rw [hsh, any_map_pres _ _ _
          (fun x => prim_upd_name_pred ctx d2.name _ _ x)]
        exact hLname
    have hFnc2 : name_taken stF ctx (d2.name ++ "_" ++ d2.serial) =
        false := by
      unfold name_taken
      rcases hshape with hsh | ⟨ipid, hsh⟩
      · rw [hsh]
        exact hLretry
      · rw [hsh, any_map_pres _ _ _
          (fun x => prim_upd_name_pred ctx (d2.name ++ "_" ++ d2.serial)
            _ _ x)]
        exact hLretry
    have hdd2 := step_device_of_retry ctx d2 (select_role ctx d2) t stF rk
      hFfilter hFrk hFnc1 hFnc2
    set dev2 : NbDevice := mk_device stF.next_id
      (d2.name ++ "_" ++ d2.serial) t.id ctx.tenant_id ctx.site_id d2.serial
      rk (select_role ctx d2) with hdev2
    set stFq : NbState := { stF with
      devices := stF.devices ++ [dev2]
      next_id := stF.next_id + 1 } with hstFq
    have hvrfF : step_vrf ctx stF = (stF, [], v) :=
      step_vrf_of_present ctx stF v vs hFvrfs
    have hdtF : step_devtype ctx d2 stF = .ok stF [] t :=
      step_devtype_of_unique ctx d2 stF t hFdt
    rcases hip2 : step_ip ctx d2 v dev2 stFq with ⟨stG, evs5, o5⟩
    have hrun2 : process_device ctx stF d2 =
        (stG, [⟨.device, false⟩, ⟨.device, true⟩] ++ evs5, o5) := by
      simp [process_device, hserb2, hvrfF, hdtF, hdd2, hip2]
    have hevs5 : ∀ e ∈ evs5,
        e.kind = EvKind.iface ∨ e.kind = EvKind.ipaddr := by
      have h0 := step_ip_evs ctx d2 v dev2 stFq
      rw [hip2] at h0
      exact h0
    have hevs5dev : evs5.filter (fun e => e.kind == EvKind.device) = [] :=
      filter_kind_nil evs5 _ (fun e he => by
        rcases hevs5 e he with h1 | h1 <;> rw [h1] <;> decide)
    have hmem := step_ip_devices_mem ctx d2 v dev2 stFq
    rw [hip2] at hmem
    dsimp only at hmem
    rw [hrun1]
    dsimp only
    rw [hrun2]
    dsimp only
    refine ⟨?_, ?_, ?_⟩
    · simp [List.filter_append, hevs5dev]
    · have hx1 : ∃ x ∈ stF.devices, x.name = d1.name ∧
          x.serial = d1.serial := by
        rcases hshape with hsh | ⟨ipid, hsh⟩
        · refine ⟨dev1, ?_, hdev1name, hdev1serial⟩
          rw [hsh]
          exact List.mem_append_right _ (List.mem_singleton_self dev1)
        · refine ⟨prim_upd dev1.id ipid dev1, ?_, ?_, ?_⟩
          · rw [hsh]
            exact List.mem_map_of_mem _ (List.mem_append_right _
              (List.mem_singleton_self dev1))
          · rw [(prim_upd_fields dev1.id ipid dev1).1]
            exact hdev1name
          · rw [(prim_upd_fields dev1.id ipid dev1).2.1]
            exact hdev1serial
      obtain ⟨x1, hx1mem, hx1name, hx1serial⟩ := hx1
      have hx1memq : x1 ∈ stFq.devices := by
        rw [show stFq.devices = stF.devices ++ [dev2] from rfl]
        exact List.mem_append_left _ hx1mem
      obtain ⟨y, hy, hyname, hyserial, _, _, _, _, _⟩ := hmem x1 hx1memq
      exact ⟨y, hy, by rw [hyname, hx1name], by rw [hyserial, hx1serial]⟩
    · have hdev2memq : dev2 ∈ stFq.devices := by
        rw [show stFq.devices = stF.devices ++ [dev2] from rfl]
        exact List.mem_append_right _ (List.mem_singleton_self dev2)
      obtain ⟨y, hy, hyname, hyserial, hysite, hytenant, hydt, hyrole,
        hyrk⟩ := hmem dev2 hdev2memq
      refine ⟨y, hy, ?_, ?_, ?_, ?_, ?_, ?_⟩
      · rw [hyname, hdev2]
        rfl
      · rw [hyserial, hdev2]
        rfl
      · rw [hysite, hdev2]
        rfl
      · rw [hytenant, hdev2]
        rfl
      · rw [hyrk, hdev2]
        rfl
      · rw [hyrole, hdev2]
        rfl

theorem collision_double_conflict_abandons (ctx : Ctx) (st : NbState)
    (dev : DeviceRec) (rk : String)
    (hser : dev.serial ≠ "")
    (hdtlen : (st.device_types.filter (dt_match ctx dev)).length ≤ 1)
    (hnodev : st.devices.filter (dev_key ctx dev) = [])
    (hrk : role_key_of st = some rk)
    (hnc1 : name_taken st ctx dev.name = true)
    (hnc2 : name_taken st ctx (dev.name ++ "_" ++ dev.serial) = true) :
    (process_device ctx st dev).2.2 = .errDeviceCreate ∧
    (process_device ctx st dev).1.devices = st.devices ∧
    (process_device ctx st dev).1.interfaces = st.interfaces ∧
    (process_device ctx st dev).1.ip_addresses = st.ip_addresses ∧
    ((process_device ctx st dev).2.1.filter
      (fun e => e.kind == EvKind.device)) =
      [⟨.device, false⟩, ⟨.device, false⟩] ∧
    ((process_device ctx st dev).2.1.filter
      (fun e => e.kind == EvKind.iface)) = [] ∧
    ((process_device ctx st dev).2.1.filter
      (fun e => e.kind == EvKind.ipaddr)) = [] := by
  have hserb : (dev.serial == "") = false := beq_eq_false_iff_ne.mpr hser
  rcases hv : step_vrf ctx st with ⟨st1, evs1, v⟩
  have hfr1 := step_vrf_frame ctx st
  rw [hv] at hfr1
  dsimp only at hfr1
  have hevs1 := step_vrf_evs ctx st
  rw [hv] at hevs1
  dsimp only at hevs1
  cases hdt : step_devtype ctx dev st1 with
  | stop st2 evs2 o =>
    exfalso
    obtain ⟨_, _, _, a, b, l, hmulti⟩ :=
      step_devtype_stop ctx dev st1 st2 evs2 o hdt
    rw [hfr1.1] at hmulti
    rw [hmulti] at hdtlen
    simp at hdtlen
  | ok st2 evs2 t =>
    have hevs2 := step_devtype_ok_evs ctx dev st1 st2 evs2 t hdt
    have hfr2 := step_devtype_frame ctx dev st1
    rw [hdt] at hfr2
    dsimp only [StepRes.state] at hfr2
    have h2devs : st2.devices = st.devices := by rw [hfr2.2.1, hfr1.2.2.1]
    have h2ifs : st2.interfaces = st.interfaces := by
      rw [hfr2.2.2.1, hfr1.2.2.2.1]
    have h2ips : st2.ip_addresses = st.ip_addresses := by
      rw [hfr2.2.2.2.2.1, hfr1.2.2.2.2.2.1]
    have h2post : st2.postable_fields = st.postable_fields := by
      rw [hfr2.2.2.2.2.2, hfr1.2.2.2.2.2.2]
    have hrk2 : role_key_of st2 = some rk := by
      rw [role_key_of_congr st2 st h2post]
      exact hrk
    have hnodev2 : st2.devices.filter (dev_key ctx dev) = [] := by
      rw [h2devs]
      exact hnodev
    have hnc1b : name_taken st2 ctx dev.name = true := by
      rw [name_taken_congr st2 st ctx dev.name h2devs]
      exact hnc1
    have hnc2b : name_taken st2 ctx (dev.name ++ "_" ++ dev.serial) =
        true := by
      rw [name_taken_congr st2 st ctx _ h2devs]
      exact hnc2
    have hdd := step_device_of_conflict2 ctx dev (select_role ctx dev) t st2
      rk hnodev2 hrk2 hnc1b hnc2b
    have hrun : process_device ctx st dev =
        (st2, evs1 ++ evs2 ++ [⟨.device, false⟩, ⟨.device, false⟩],
          .errDeviceCreate) := by
      simp [process_device, hserb, hv, hdt, hdd]
    rw [hrun]
    have hevs1dev : evs1.filter (fun e => e.kind == EvKind.device) = [] := by
      rcases hevs1 with h1 | h1 <;> rw [h1] <;> decide
    have hevs1if : evs1.filter (fun e => e.kind == EvKind.iface) = [] := by
      rcases hevs1 with h1 | h1 <;> rw [h1] <;> decide
    have hevs1ip : evs1.filter (fun e => e.kind == EvKind.ipaddr) = [] := by
      rcases hevs1 with h1 | h1 <;> rw [h1] <;> decide
    have hevs2dev : evs2.filter (fun e => e.kind == EvKind.device) = [] :=
      filter_kind_nil evs2 _ (fun e he => by
        rcases hevs2 e he with h1 | h1 <;> rw [h1] <;> decide)
    have hevs2if : evs2.filter (fun e => e.kind == EvKind.iface) = [] :=
      filter_kind_nil evs2 _ (fun e he => by
        rcases hevs2 e he with h1 | h1 <;> rw [h1] <;> decide)
    have hevs2ip : evs2.filter (fun e => e.kind == EvKind.ipaddr) = [] :=
      filter_kind_nil evs2 _ (fun e he => by
        rcases hevs2 e he with h1 | h1 <;> rw [h1] <;> decide)
    refine ⟨rfl, h2devs, h2ifs, h2ips, ?_, ?_, ?_⟩
    · simp [List.filter_append, hevs1dev, hevs2dev]
    · simp [List.filter_append, hevs1if, hevs2if]
    · simp [List.filter_append, hevs1ip, hevs2ip]

/-- C6: on a per-site device-name conflict the creation is retried exactly
once with the name suffixed by the serial and all other fields unchanged;
a second conflict abandons the device with no further steps; hence two
devices with the same name but distinct serials at the same site both end
up created, the second persisted as `<name>_<serial>`. -/
theorem device_name_collision_retry :
    (∀ (ctx : Ctx) (st : NbState) (d1 d2 : DeviceRec) (rk : String),
      d2.name = d1.name → d1.serial ≠ "" → d2.serial ≠ "" →
      d1.serial ≠ d2.serial → d2.model = d1.model →
      (st.device_types.filter (dt_match ctx d1)).length ≤ 1 →
      st.devices.filter (dev_key ctx d1) = [] →
      st.devices.filter (dev_key ctx d2) = [] →
      role_key_of st = some rk →
      name_taken st ctx d1.name = false →
      name_taken st ctx (d1.name ++ "_" ++ d2.serial) = false →
      ((process_device ctx (process_device ctx st d1).1 d2).2.1.filter
          (fun e => e.kind == EvKind.device)) =
        [⟨.device, false⟩, ⟨.device, true⟩] ∧
      (∃ x ∈ (process_device ctx (process_device ctx st d1).1 d2).1.devices,
        x.name = d1.name ∧ x.serial = d1.serial) ∧
      (∃ y ∈ (process_device ctx (process_device ctx st d1).1 d2).1.devices,
        y.name = d2.name ++ "_" ++ d2.serial ∧ y.serial = d2.serial ∧
        y.site = ctx.site_id ∧ y.tenant = ctx.tenant_id ∧
        y.role_key = rk ∧ y.role = select_role ctx d2)) ∧
    (∀ (ctx : Ctx) (st : NbState) (dev : DeviceRec) (rk : String),
      dev.serial ≠ "" →
      (st.device_types.filter (dt_match ctx dev)).length ≤ 1 →
      st.devices.filter (dev_key ctx dev) = [] →
      role_key_of st = some rk →
      name_taken st ctx dev.name = true →
      name_taken st ctx (dev.name ++ "_" ++ dev.serial) = true →
      (process_device ctx st dev).2.2 = .errDeviceCreate ∧
      (process_device ctx st dev).1.devices = st.devices ∧
      (process_device ctx st dev).1.interfaces = st.interfaces ∧
      (process_device ctx st dev).1.ip_addresses = st.ip_addresses ∧
      ((process_device ctx st dev).2.1.filter
        (fun e => e.kind == EvKind.device)) =
        [⟨.device, false⟩, ⟨.device, false⟩]) :=
  ⟨fun ctx st d1 d2 rk h1 h2 h3 h4 h5 h6 h7 h8 h9 h10 h11 =>
    collision_second_device_retry ctx st d1 d2 rk h1 h2 h3 h4 h5 h6 h7 h8
      h9 h10 h11,
   fun ctx st dev rk h1 h2 h3 h4 h5 h6 =>
    let h := collision_double_conflict_abandons ctx st dev rk h1 h2 h3 h4
      h5 h6
    ⟨h.1, h.2.1, h.2.2.1, h.2.2.2.1, h.2.2.2.2.1⟩⟩

/-- C1, counterexample to the claim as stated: with a valid IP, no prefix in
the inventory at all, and every other step able to proceed, `process_device`
returns at the prefix lookup with the device created but WITHOUT creating
the `vlan.1` interface — the claimed "interface creation also proceeding"
does not happen. -/
theorem pfxless_ip_interface_not_created_cex :
    (is_valid_ip "10.0.0.5" = true) ∧
    ((process_device ⟨10, 11, 20, 30, "Ubiquity Networks", 40, "HQ"⟩
        ⟨[], [], [], [], [], [], [], ["role"], 100⟩
        ⟨"sw1", "US-8", "aa:bb", "10.0.0.5", "S1", "false", []⟩).2.2 =
      .skippedNoPfx) ∧
    ((process_device ⟨10, 11, 20, 30, "Ubiquity Networks", 40, "HQ"⟩
        ⟨[], [], [], [], [], [], [], ["role"], 100⟩
        ⟨"sw1", "US-8", "aa:bb", "10.0.0.5", "S1", "false", []⟩).1.devices ≠
      []) ∧
    ((process_device ⟨10, 11, 20, 30, "Ubiquity Networks", 40, "HQ"⟩
        ⟨[], [], [], [], [], [], [], ["role"], 100⟩
        ⟨"sw1", "US-8", "aa:bb", "10.0.0.5", "S1", "false", []⟩).1.interfaces =
      []) ∧
    ((process_device ⟨10, 11, 20, 30, "Ubiquity Networks", 40, "HQ"⟩
        ⟨[], [], [], [], [], [], [], ["role"], 100⟩
        ⟨"sw1", "US-8", "aa:bb", "10.0.0.5", "S1", "false", []⟩).2.1.filter
        (fun e => e.kind == EvKind.iface) = []) := by
  decide

theorem no_containing_pfx_skips_ip_and_iface_witness :
    (("S1" : String) ≠ "" ∧
      role_key_of ⟨[], [], [], [], [], [], [], ["role"], 100⟩ =
        some "role" ∧
      is_valid_ip "10.0.0.5" = true) ∧
    ((process_device ⟨10, 11, 20, 30, "Ubiquity Networks", 40, "HQ"⟩
        ⟨[], [], [], [], [], [], [], ["role"], 100⟩
        ⟨"sw1", "US-8", "aa:bb", "10.0.0.5", "S1", "false", []⟩).2.2 =
      .skippedNoPfx) :=
  ⟨⟨by decide, by decide, by decide⟩,
    (no_containing_pfx_skips_ip_and_iface
      ⟨10, 11, 20, 30, "Ubiquity Networks", 40, "HQ"⟩
      ⟨[], [], [], [], [], [], [], ["role"], 100⟩
      ⟨"sw1", "US-8", "aa:bb", "10.0.0.5", "S1", "false", []⟩ "role"
      (by decide) (by decide) (by decide) (by decide) (by decide)
      (by decide) (by intro p hp; simp at hp)).1⟩

/-- C2, counterexample to the claim as stated: a device whose creation
failed on both the plain and the suffixed name in the first run is retried
in the second run, so the second run does issue (rejected) device-create
calls — the state is nevertheless unchanged. -/
theorem second_run_repeats_failed_creates_cex :
    (process_device ⟨10, 11, 20, 30, "Ubiquity Networks", 40, "HQ"⟩
        ((process_device ⟨10, 11, 20, 30, "Ubiquity Networks", 40, "HQ"⟩
            ⟨[], [], [],
              [⟨90, "sw1", 5, 20, 40, "OTHER", "role", 11, none⟩,
                ⟨91, "sw1_S1", 5, 20, 40, "OTHER2", "role", 11, none⟩],
              [], [], [], ["role"], 100⟩
            ⟨"sw1", "US-8", "aa:bb", "10.0.0.5", "S1", "false", []⟩).1)
        ⟨"sw1", "US-8", "aa:bb", "10.0.0.5", "S1", "false", []⟩).2.1 =
      [⟨.device, false⟩, ⟨.device, false⟩] := by
  decide

theorem device_name_collision_retry_witness :
    (((process_device ⟨10, 11, 20, 30, "Ubiquity Networks", 40, "HQ"⟩
        (process_device ⟨10, 11, 20, 30, "Ubiquity Networks", 40, "HQ"⟩
          ⟨[], [], [], [], [], [], [], ["role"], 100⟩
          ⟨"sw1", "US-8", "aa", "10.0.0.5", "S1", "false", []⟩).1
        ⟨"sw1", "US-8", "bb", "10.0.0.6", "S2", "false", []⟩).2.1.filter
        (fun e => e.kind == EvKind.device)) =
      [⟨.device, false⟩, ⟨.device, true⟩] ∧
      (∃ y ∈ (process_device ⟨10, 11, 20, 30, "Ubiquity Networks", 40, "HQ"⟩
          (process_device ⟨10, 11, 20, 30, "Ubiquity Networks", 40, "HQ"⟩
            ⟨[], [], [], [], [], [], [], ["role"], 100⟩
            ⟨"sw1", "US-8", "aa", "10.0.0.5", "S1", "false", []⟩).1
          ⟨"sw1", "US-8", "bb", "10.0.0.6", "S2", "false", []⟩).1.devices,
        y.name = "sw1" ++ "_" ++ "S2" ∧ y.serial = "S2" ∧ y.site = 40 ∧
        y.tenant = 20 ∧ y.role_key = "role" ∧
        y.role = select_role ⟨10, 11, 20, 30, "Ubiquity Networks", 40, "HQ"⟩
          ⟨"sw1", "US-8", "bb", "10.0.0.6", "S2", "false", []⟩)) ∧
    ((process_device ⟨10, 11, 20, 30, "Ubiquity Networks", 40, "HQ"⟩
        ⟨[], [], [],
          [⟨90, "sw1", 5, 20, 40, "OTHER", "role", 11, none⟩,
            ⟨91, "sw1_S1", 5, 20, 40, "OTHER2", "role", 11, none⟩],
          [], [], [], ["role"], 100⟩
        ⟨"sw1", "US-8", "aa", "10.0.0.5", "S1", "false", []⟩).2.2 =
      .errDeviceCreate) := by
  constructor
  · have h := device_name_collision_retry.1
      ⟨10, 11, 20, 30, "Ubiquity Networks", 40, "HQ"⟩
      ⟨[], [], [], [], [], [], [], ["role"], 100⟩
      ⟨"sw1", "US-8", "aa", "10.0.0.5", "S1", "false", []⟩
      ⟨"sw1", "US-8", "bb", "10.0.0.6", "S2", "false", []⟩ "role"
      (by decide) (by decide) (by decide) (by decide) (by decide)
      (by decide) (by decide) (by decide) (by decide) (by decide)
      (by decide)
    exact ⟨h.1, h.2.2⟩
  · exact (device_name_collision_retry.2
      ⟨10, 11, 20, 30, "Ubiquity Networks", 40, "HQ"⟩
      ⟨[], [], [],
        [⟨90, "sw1", 5, 20, 40, "OTHER", "role", 11, none⟩,
          ⟨91, "sw1_S1", 5, 20, 40, "OTHER2", "role", 11, none⟩],
        [], [], [], ["role"], 100⟩
      ⟨"sw1", "US-8", "aa", "10.0.0.5", "S1", "false", []⟩ "role"
      (by decide) (by decide) (by decide) (by decide) (by decide)
      (by decide)).1

/-- When serial, role field, uniqueness and name all permit it, the device
is created and persists to the end of `process_device` with the payload the
script assembled: the site, tenant, serial, selected role and role field
name. -/
theorem clean_create_persists (ctx : Ctx) (st : NbState) (dev : DeviceRec)
    (rk : String)
    (hser : dev.serial ≠ "")
    (hdtlen : (st.device_types.filter (dt_match ctx dev)).length ≤ 1)
    (hnodev : st.devices.filter (dev_key ctx dev) = [])
    (hrk : role_key_of st = some rk)
    (hnc : name_taken st ctx dev.name = false) :
    ∃ y ∈ (process_device ctx st dev).1.devices,
      y.name = dev.name ∧ y.serial = dev.serial ∧ y.site = ctx.site_id ∧
      y.tenant = ctx.tenant_id ∧ y.role_key = rk ∧
      y.role = select_role ctx dev := by
  have hserb : (dev.serial == "") = false := beq_eq_false_iff_ne.mpr hser
  rcases hv : step_vrf ctx st with ⟨st1, evs1, v⟩
  have hfr1 := step_vrf_frame ctx st
  rw [hv] at hfr1
  dsimp only at hfr1
  cases hdt : step_devtype ctx dev st1 with
  | stop st2 evs2 o =>
    exfalso
    obtain ⟨_, _, _, a, b, l, hmulti⟩ :=
      step_devtype_stop ctx dev st1 st2 evs2 o hdt
    rw [hfr1.1] at hmulti
    rw [hmulti] at hdtlen
    simp at hdtlen
  | ok st2 evs2 t =>
    have hfr2 := step_devtype_frame ctx dev st1
    rw [hdt] at hfr2
    dsimp only [StepRes.state] at hfr2
    have h2devs : st2.devices = st.devices := by rw [hfr2.2.1, hfr1.2.2.1]
    have h2post : st2.postable_fields = st.postable_fields := by
      rw [hfr2.2.2.2.2.2, hfr1.2.2.2.2.2.2]
    have hrk2 : role_key_of st2 = some rk := by
      rw [role_key_of_congr st2 st h2post]
      exact hrk
    have hnodev2 : st2.devices.filter (dev_key ctx dev) = [] := by
      rw [h2devs]
      exact hnodev
    have hnc2 : name_taken st2 ctx dev.name = false := by
      rw [name_taken_congr st2 st ctx dev.name h2devs]
      exact hnc
    have hdd := step_device_of_clean ctx dev (select_role ctx dev) t st2 rk
      hnodev2 hrk2 hnc2
    set dev1 : NbDevice := mk_device st2.next_id dev.name t.id
      ctx.tenant_id ctx.site_id dev.serial rk (select_role ctx dev)
      with hdev1
    set st3 : NbState := { st2 with
      devices := st2.devices ++ [dev1]
      next_id := st2.next_id + 1 } with hst3
    rcases hip1 : step_ip ctx dev v dev1 st3 with ⟨st4, evs4, o4⟩
    have hrun : process_device ctx st dev =
        (st4, evs1 ++ evs2 ++ [⟨.device, true⟩] ++ evs4, o4) := by
      simp [process_device, hserb, hv, hdt, hdd, hip1]
    have hmem := step_ip_devices_mem ctx dev v dev1 st3
    rw [hip1] at hmem
    dsimp only at hmem
    have hd1mem : dev1 ∈ st2.devices ++ [dev1] :=
      List.mem_append_right _ (List.mem_singleton_self dev1)
    obtain ⟨y, hy, hyname, hyserial, hysite, hytenant, hydt, hyrole, hyrk⟩ :=
      hmem dev1 hd1mem
    rw [hrun]
    dsimp only
    refine ⟨y, hy, ?_, ?_, ?_, ?_, ?_, ?_⟩
    · rw [hyname, hdev1]
      rfl
    · rw [hyserial, hdev1]
      rfl
    · rw [hysite, hdev1]
      rfl
    · rw [hytenant, hdev1]
      rfl
    · rw [hyrk, hdev1]
      rfl
    · rw [hyrole, hdev1]
      rfl

/-- When the device-creation schema exposes neither `role` nor
`device_role`, the device step aborts: no device is created and the
outcome is the role-field error. -/
theorem role_field_missing_aborts (ctx : Ctx) (st : NbState)
    (dev : DeviceRec)
    (hser : dev.serial ≠ "")
    (hdtlen : (st.device_types.filter (dt_match ctx dev)).length ≤ 1)
    (hnodev : st.devices.filter (dev_key ctx dev) = [])
    (hrkn : role_key_of st = none) :
    (process_device ctx st dev).2.2 = .errRoleField ∧
    (process_device ctx st dev).1.devices = st.devices ∧
    (process_device ctx st dev).1.interfaces = st.interfaces ∧
    (process_device ctx st dev).1.ip_addresses = st.ip_addresses ∧
    ((process_device ctx st dev).2.1.filter
      (fun e => e.kind == EvKind.device)) = [] := by
  have hserb : (dev.serial == "") = false := beq_eq_false_iff_ne.mpr hser
  rcases hv : step_vrf ctx st with ⟨st1, evs1, v⟩
  have hfr1 := step_vrf_frame ctx st
  rw [hv] at hfr1
  dsimp only at hfr1
  have hevs1 := step_vrf_evs ctx st
  rw [hv] at hevs1
  dsimp only at hevs1
  cases hdt : step_devtype ctx dev st1 with
  | stop st2 evs2 o =>
    exfalso
    obtain ⟨_, _, _, a, b, l, hmulti⟩ :=
      step_devtype_stop ctx dev st1 st2 evs2 o hdt
    rw [hfr1.1] at hmulti
    rw [hmulti] at hdtlen
    simp at hdtlen
  | ok st2 evs2 t =>
    have hevs2 := step_devtype_ok_evs ctx dev st1 st2 evs2 t hdt
    have hfr2 := step_devtype_frame ctx dev st1
    rw [hdt] at hfr2
    dsimp only [StepRes.state] at hfr2
    have h2devs : st2.devices = st.devices := by rw [hfr2.2.1, hfr1.2.2.1]
    have h2ifs : st2.interfaces = st.interfaces := by
      rw [hfr2.2.2.1, hfr1.2.2.2.1]
    have h2ips : st2.ip_addresses = st.ip_addresses := by
      rw [hfr2.2.2.2.2.1, hfr1.2.2.2.2.2.1]
    have h2post : st2.postable_fields = st.postable_fields := by
      rw [hfr2.2.2.2.2.2, hfr1.2.2.2.2.2.2]
    have hrk2 : role_key_of st2 = none := by
      rw [role_key_of_congr st2 st h2post]
      exact hrkn
    have hnodev2 : st2.devices.filter (dev_key ctx dev) = [] := by
      rw [h2devs]
      exact hnodev
    have hdd := step_device_of_norole ctx dev (select_role ctx dev) t st2
      hnodev2 hrk2
    have hrun : process_device ctx st dev =
        (st2, evs1 ++ evs2, .errRoleField) := by
      simp [process_device, hserb, hv, hdt, hdd]
    rw [hrun]
    have hevs1dev : evs1.filter (fun e => e.kind == EvKind.device) = [] := by
      rcases hevs1 with h1 | h1 <;> rw [h1] <;> decide
    have hevs2dev : evs2.filter (fun e => e.kind == EvKind.device) = [] :=
      filter_kind_nil evs2 _ (fun e he => by
        rcases hevs2 e he with h1 | h1 <;> rw [h1] <;> decide)
    exact ⟨rfl, h2devs, h2ifs, h2ips,
      by simp [List.filter_append, hevs1dev, hevs2dev]⟩

/-- C8: the persisted device's role is the Wireless role exactly when the
device's `is_access_point` string equals `"true"` case-insensitively, and
the LAN role otherwise. -/
theorem role_selection_wireless_iff_truthy (ctx : Ctx) (st : NbState)
    (dev : DeviceRec) (rk : String)
    (hser : dev.serial ≠ "")
    (hdtlen : (st.device_types.filter (dt_match ctx dev)).length ≤ 1)
    (hnodev : st.devices.filter (dev_key ctx dev) = [])
    (hrk : role_key_of st = some rk)
    (hnc : name_taken st ctx dev.name = false) :
    ∃ y ∈ (process_device ctx st dev).1.devices,
      y.serial = dev.serial ∧ y.site = ctx.site_id ∧
      ((lowerStr dev.is_access_point == "true") = true →
        y.role = ctx.wireless_role) ∧
      ((lowerStr dev.is_access_point == "true") = false →
        y.role = ctx.lan_role) := by
  obtain ⟨y, hy, _, hyserial, hysite, _, _, hyrole⟩ :=
    clean_create_persists ctx st dev rk hser hdtlen hnodev hrk hnc
  refine ⟨y, hy, hyserial, hysite, ?_, ?_⟩
  · intro hcase
    rw [hyrole]
    unfold select_role
    rw [hcase]
    rfl
  · intro hcase
    rw [hyrole]
    unfold select_role
    rw [hcase]
    rfl

theorem role_selection_wireless_iff_truthy_witness :
    (("S1" : String) ≠ "" ∧
      role_key_of ⟨[], [], [], [], [], [], [], ["role"], 100⟩ =
        some "role") ∧
    (∃ y ∈ (process_device ⟨10, 11, 20, 30, "Ubiquity Networks", 40, "HQ"⟩
        ⟨[], [], [], [], [], [], [], ["role"], 100⟩
        ⟨"ap1", "U6-LR", "aa:bb", "10.0.0.7", "S1", "True", []⟩).1.devices,
      y.serial = "S1" ∧ y.site = 40 ∧
      ((lowerStr "True" == "true") = true → y.role = 10) ∧
      ((lowerStr "True" == "true") = false → y.role = 11)) :=
  ⟨⟨by decide, by decide⟩,
    role_selection_wireless_iff_truthy
      ⟨10, 11, 20, 30, "Ubiquity Networks", 40, "HQ"⟩
      ⟨[], [], [], [], [], [], [], ["role"], 100⟩
      ⟨"ap1", "U6-LR", "aa:bb", "10.0.0.7", "S1", "True", []⟩ "role"
      (by decide) (by decide) (by decide) (by decide) (by decide)⟩

/-- C9: when the device-creation schema exposes `role` that field name is
used; otherwise `device_role` is used when exposed; when neither is exposed
the device is aborted with an error and no InventoryDevice is created. -/
theorem role_field_capability_handling (ctx : Ctx) (st : NbState)
    (dev : DeviceRec)
    (hser : dev.serial ≠ "")
    (hdtlen : (st.device_types.filter (dt_match ctx dev)).length ≤ 1)
    (hnodev : st.devices.filter (dev_key ctx dev) = [])
    (hnc : name_taken st ctx dev.name = false) :
    ((st.postable_fields.contains "role" = true) →
      ∃ y ∈ (process_device ctx st dev).1.devices,
        y.serial = dev.serial ∧ y.site = ctx.site_id ∧
        y.role_key = "role") ∧
    ((st.postable_fields.contains "role" = false) →
      (st.postable_fields.contains "device_role" = true) →
      ∃ y ∈ (process_device ctx st dev).1.devices,
        y.serial = dev.serial ∧ y.site = ctx.site_id ∧
        y.role_key = "device_role") ∧
    ((st.postable_fields.contains "role" = false) →
      (st.postable_fields.contains "device_role" = false) →
      (process_device ctx st dev).2.2 = .errRoleField ∧
      (process_device ctx st dev).1.devices = st.devices ∧
      ((process_device ctx st dev).2.1.filter
        (fun e => e.kind == EvKind.device)) = []) := by
  refine ⟨?_, ?_, ?_⟩
  · intro hc
    have hrk : role_key_of st = some "role" := by
      unfold role_key_of get_postable_fields
      rw [hc]
      rfl
    obtain ⟨y, hy, _, hyserial, hysite, _, hyrk, _⟩ :=
      clean_create_persists ctx st dev "role" hser hdtlen hnodev hrk hnc
    exact ⟨y, hy, hyserial, hysite, hyrk⟩
  · intro hc1 hc2
    have hrk : role_key_of st = some "device_role" := by
      unfold role_key_of get_postable_fields
      rw [hc1, hc2]
      rfl
    obtain ⟨y, hy, _, hyserial, hysite, _, hyrk, _⟩ :=
      clean_create_persists ctx st dev "device_role" hser hdtlen hnodev hrk
        hnc
    exact ⟨y, hy, hyserial, hysite, hyrk⟩
  · intro hc1 hc2
    have hrkn : role_key_of st = none := by
      unfold role_key_of get_postable_fields
      rw [hc1, hc2]
      rfl
    have h := role_field_missing_aborts ctx st dev hser hdtlen hnodev hrkn
    exact ⟨h.1, h.2.1, h.2.2.2.2⟩

theorem role_field_capability_handling_witness :
    (("S1" : String) ≠ "" ∧
      (([] : List NbDevice).filter
        (dev_key ⟨10, 11, 20, 30, "Ubiquity Networks", 40, "HQ"⟩
          ⟨"sw1", "US-8", "aa:bb", "10.0.0.5", "S1", "false", []⟩) = [])) ∧
    ((process_device ⟨10, 11, 20, 30, "Ubiquity Networks", 40, "HQ"⟩
        ⟨[], [], [], [], [], [], [], ["name", "site"], 100⟩
        ⟨"sw1", "US-8", "aa:bb", "10.0.0.5", "S1", "false", []⟩).2.2 =
      .errRoleField) ∧
    ((process_device ⟨10, 11, 20, 30, "Ubiquity Networks", 40, "HQ"⟩
        ⟨[], [], [], [], [], [], [], ["name", "site"], 100⟩
        ⟨"sw1", "US-8", "aa:bb", "10.0.0.5", "S1", "false", []⟩).1.devices =
      []) ∧
    (∃ y ∈ (process_device ⟨10, 11, 20, 30, "Ubiquity Networks", 40, "HQ"⟩
        ⟨[], [], [], [], [], [], [], ["device_role", "name"], 100⟩
        ⟨"sw1", "US-8", "aa:bb", "10.0.0.5", "S1", "false", []⟩).1.devices,
      y.serial = "S1" ∧ y.site = 40 ∧ y.role_key = "device_role") := by
  refine ⟨⟨by decide, by decide⟩, ?_, ?_, ?_⟩
  · exact ((role_field_capability_handling
      ⟨10, 11, 20, 30, "Ubiquity Networks", 40, "HQ"⟩
      ⟨[], [], [], [], [], [], [], ["name", "site"], 100⟩
      ⟨"sw1", "US-8", "aa:bb", "10.0.0.5", "S1", "false", []⟩
      (by decide) (by decide) (by decide) (by decide)).2.2
      (by decide) (by decide)).1
  · exact ((role_field_capability_handling
      ⟨10, 11, 20, 30, "Ubiquity Networks", 40, "HQ"⟩
      ⟨[], [], [], [], [], [], [], ["name", "site"], 100⟩
      ⟨"sw1", "US-8", "aa:bb", "10.0.0.5", "S1", "false", []⟩
      (by decide) (by decide) (by decide) (by decide)).2.2
      (by decide) (by decide)).2.1
  · exact (role_field_capability_handling
      ⟨10, 11, 20, 30, "Ubiquity Networks", 40, "HQ"⟩
      ⟨[], [], [], [], [], [], [], ["device_role", "name"], 100⟩
      ⟨"sw1", "US-8", "aa:bb", "10.0.0.5", "S1", "false", []⟩
      (by decide) (by decide) (by decide) (by decide)).2.1
      (by decide) (by decide)

end Unifi2Netbox
